import Mathlib

/-!
Shallow embedding, in Lean 4, of the two Python applications of this repository:
the AML/fraud investigation toolkit (`aml-investigation-ai`) and the financial
advisor toolkit (`financial-ai-advisor`).

Conventions used throughout:
* Python numbers (ints and floats) are modelled as exact rationals `ℚ`; Python
  integer counters as `ℕ`/`ℤ`.
* A Python function that can raise is modelled as `Except PyErr _`; the normal
  return path is `.ok`.
* Python dictionaries whose values flow in from LLM-supplied JSON are modelled
  by the `Json` type below; `dict.get(k, d)` becomes `Json.getD`.
* Pydantic field constraints (e.g. `final_risk_score` with `ge=0, le=10`) are
  modelled as validation checks performed when the model object is built.
-/

/-- Python-level runtime errors that the embedded code can raise. -/
inductive PyErr
  /-- `NameError`, e.g. referencing the undefined `self` in a module-level function. -/
  | nameError (name : String)
  /-- `KeyError`, e.g. `result["tool"]` on a dict without that key. -/
  | keyError (key : String)
  /-- `TypeError`, e.g. comparing a string with a number or hashing a dict. -/
  | typeError (msg : String)
  /-- `ValueError`, e.g. an unsupported model name. -/
  | valueError (msg : String)
  /-- A pydantic `ValidationError` raised while constructing a model object. -/
  | validationError (msg : String)
  deriving DecidableEq, Repr

/-- First-match association-list lookup, the model of a Python `dict` access
where keys are strings and no key is duplicated. -/
def alookup {α : Type} (k : String) : List (String × α) → Option α
  | [] => none
  | (k', v) :: rest => if k' = k then some v else alookup k rest

namespace Advisor

/-! ## `src/models/client_profile.py` -/

/-- The `LifeStage` string enum. -/
inductive LifeStage
  | youngProfessional
  | growingFamily
  | midCareer
  | preRetirement
  | retired
  deriving DecidableEq, Repr

/-- The slice of `ClientProfile` that `infer_life_stage` reads: `age`
(pydantic-constrained to 18..120), `dependents` (≥ 0) and the optional
explicit `life_stage`. -/
structure ClientProfileSlice where
  age : ℕ
  dependents : ℕ
  life_stage : Option LifeStage
  deriving DecidableEq, Repr

/-- `ClientProfile.infer_life_stage`. The guard `if self.life_stage:` is truthy
exactly when the field is set, because every `LifeStage` enum value is a
non-empty string. -/
def ClientProfileSlice.infer_life_stage (p : ClientProfileSlice) : LifeStage :=
  match p.life_stage with
  | some s => s
  | none =>
    if p.age < 35 then .youngProfessional
    else if p.age < 45 then
      (if p.dependents > 0 then .growingFamily else .midCareer)
    else if p.age < 55 then .midCareer
    else if p.age < 65 then .preRetirement
    else .retired

/-- The life-stage table exactly as the specification words it, with two-sided
age bounds; used to compare the source function against the spec. -/
def lifeStageSpec (age dependents : ℕ) : LifeStage :=
  if age < 35 then .youngProfessional
  else if 35 ≤ age ∧ age < 45 then
    (if dependents > 0 then .growingFamily else .midCareer)
  else if 45 ≤ age ∧ age < 55 then .midCareer
  else if 55 ≤ age ∧ age < 65 then .preRetirement
  else .retired

/-! ## `src/config.py` -/

/-! ### IEEE-754 binary64 arithmetic

Python floats are IEEE-754 binary64 values and every operation of
`Config.estimate_cost` — the decimal rate literals, `input_tokens / 1000`
(CPython's `int.__truediv__` is correctly rounded), the multiplications and
the addition — rounds its exact result to the nearest double, ties to even.
A finite double is a dyadic rational `m * 2^e`; rounding is computed below
exactly, over `ℤ`/`ℕ`. The model covers the finite range (no overflow to
infinity, no NaN): the catalogue rates are at most 0.06 and the theorems
bound token counts by `10^15`, so every intermediate stays far below the
overflow threshold `2^1024`. -/

/-- A finite IEEE-754 binary64 value, exactly represented as `m * 2^e`.
The representation produced by `roundQ` is canonical: zero is `⟨0, -1074⟩`,
a normal value has `2^52 ≤ |m| < 2^53`, a subnormal has `e = -1074`. -/
structure F64 where
  m : ℤ
  e : ℤ
  deriving DecidableEq, Repr

/-- Fuel-based `⌊log2⌋` on `ℕ` (0 for inputs 0 and 1). -/
def nlog2Aux : ℕ → ℕ → ℕ
  | 0, _ => 0
  | f + 1, n => if 2 ≤ n then nlog2Aux f (n / 2) + 1 else 0

/-- `⌊log2 n⌋` for `n ≥ 1`. -/
def nlog2 (n : ℕ) : ℕ := nlog2Aux n n

/-- Decides `2^e ≤ a / b` for positive naturals `a`, `b`. -/
def pow2Le (e : ℤ) (a b : ℕ) : Bool :=
  if 0 ≤ e then decide (b * 2 ^ e.toNat ≤ a) else decide (b ≤ a * 2 ^ (-e).toNat)

/-- `⌊log2 (a / b)⌋` for positive naturals `a`, `b`: the estimate
`⌊log2 a⌋ - ⌊log2 b⌋` is exact or one too high, so test downward. -/
def qlog2Floor (a b : ℕ) : ℤ :=
  let L0 : ℤ := (nlog2 a : ℤ) - (nlog2 b : ℤ)
  if pow2Le (L0 + 1) a b then L0 + 1
  else if pow2Le L0 a b then L0 else L0 - 1

/-- `a / q` rounded to the nearest natural, ties to even (`q > 0`). -/
def rnRatio (a q : ℕ) : ℕ :=
  let d := a / q
  let r := a % q
  if q < 2 * r then d + 1
  else if 2 * r < q then d
  else if d % 2 = 0 then d else d + 1

/-- The binary64 double nearest to `num / den` (`den > 0`), ties to even:
scale the magnitude so the significand has 53 bits (clamping the ulp
exponent at `-1074` for subnormals), round it, and renormalize a carry. -/
def roundQ (num : ℤ) (den : ℕ) : F64 :=
  if num = 0 then ⟨0, -1074⟩
  else
    let a := num.natAbs
    let L := qlog2Floor a den
    let E := max (L - 52) (-1074)
    let n := if 0 ≤ E then rnRatio a (den * 2 ^ E.toNat)
             else rnRatio (a * 2 ^ (-E).toNat) den
    let p : ℕ × ℤ := if n = 2 ^ 53 then (2 ^ 52, E + 1) else (n, E)
    ⟨if num < 0 then -(p.1 : ℤ) else (p.1 : ℤ), p.2⟩

/-- The binary64 double nearest to the dyadic `m * 2^e`. -/
def roundDyadic (m : ℤ) (e : ℤ) : F64 :=
  if 0 ≤ e then roundQ (m * 2 ^ e.toNat) 1 else roundQ m (2 ^ (-e).toNat)

/-- Python's `int / 1000`: the correctly rounded true quotient. -/
def fdiv1000 (i : ℤ) : F64 := roundQ i 1000

/-- binary64 multiplication: the exact product is dyadic; round it. -/
def fmul (x y : F64) : F64 := roundDyadic (x.m * y.m) (x.e + y.e)

/-- binary64 addition: align the exponents, add exactly, round. -/
def fadd (x y : F64) : F64 :=
  let e := min x.e y.e
  roundDyadic (x.m * 2 ^ (x.e - e).toNat + y.m * 2 ^ (y.e - e).toNat) e

/-- The exact rational value of a finite double. -/
def F64.toRat (x : F64) : ℚ :=
  if 0 ≤ x.e then (x.m : ℚ) * 2 ^ x.e.toNat else (x.m : ℚ) / 2 ^ (-x.e).toNat

/-- The `ModelConfig` frozen dataclass; the float fields hold binary64
values. -/
structure ModelConfig where
  name : String
  provider : String
  max_tokens : ℕ
  temperature : F64
  cost_per_1k_input : F64
  cost_per_1k_output : F64
  deriving DecidableEq, Repr

/-- The fixed four-entry `Config.MODELS` pricing catalogue. Each decimal
float literal of the source denotes the binary64 double nearest to its
decimal value, e.g. `0.00015` is `roundQ 15 100000`. -/
def MODELS : List (String × ModelConfig) :=
  [ ("gpt-4o-mini",
      { name := "gpt-4o-mini", provider := "openai", max_tokens := 16384,
        temperature := roundQ 7 10,
        cost_per_1k_input := roundQ 15 100000, cost_per_1k_output := roundQ 6 10000 }),
    ("gpt-4o",
      { name := "gpt-4o", provider := "openai", max_tokens := 4096,
        temperature := roundQ 7 10,
        cost_per_1k_input := roundQ 5 1000, cost_per_1k_output := roundQ 15 1000 }),
    ("gpt-4",
      { name := "gpt-4", provider := "openai", max_tokens := 8192,
        temperature := roundQ 7 10,
        cost_per_1k_input := roundQ 3 100, cost_per_1k_output := roundQ 6 100 }),
    ("claude-3-sonnet-20240229",
      { name := "claude-3-sonnet-20240229", provider := "anthropic", max_tokens := 4096,
        temperature := roundQ 7 10,
        cost_per_1k_input := roundQ 3 1000, cost_per_1k_output := roundQ 15 1000 }) ]

/-- `Config.get_model_config`: a missing catalogue entry raises `ValueError`
(a dataclass instance is always truthy, so `if not config:` fires only on `None`). -/
def get_model_config (model_name : String) : Except PyErr ModelConfig :=
  match alookup model_name MODELS with
  | some c => .ok c
  | none => .error (.valueError ("Unsupported model: " ++ model_name))

/-- `Config.estimate_cost`: `input_tokens / 1000 * cost_per_1k_input +
output_tokens / 1000 * cost_per_1k_output`, every operation in binary64
(Python's `/` on ints is correctly rounded float division, and `*`, `+`
round their exact results to the nearest double). -/
def estimate_cost (model_name : String) (input_tokens output_tokens : ℤ) :
    Except PyErr F64 :=
  (get_model_config model_name).map fun c =>
    fadd (fmul (fdiv1000 input_tokens) c.cost_per_1k_input)
      (fmul (fdiv1000 output_tokens) c.cost_per_1k_output)

end Advisor

namespace AML

/-! ## JSON values

LLM-supplied data (tool parameters, tool-call blocks, generic tool results)
is dynamically typed in the Python source; it is modelled by `Json`.
Numbers are exact rationals. An object keeps its fields in insertion order;
well-formed Python dicts have no duplicate keys, and `json.loads` collapses
duplicates before any code here sees them. -/

inductive Json where
  | null
  | bool (b : Bool)
  | num (q : ℚ)
  | str (s : String)
  | arr (elems : List Json)
  | obj (fields : List (String × Json))

mutual

/-- Decidable structural equality on JSON values (Python `==` on parsed JSON
data agrees with structural equality here because objects with duplicate keys
never arise — `json.loads` collapses them). -/
def Json.decEq : (a b : Json) → Decidable (a = b)
  | .null, .null => isTrue rfl
  | .bool a, .bool b =>
    if h : a = b then isTrue (by rw [h]) else isFalse (fun hh => h (by cases hh; rfl))
  | .num a, .num b =>
    if h : a = b then isTrue (by rw [h]) else isFalse (fun hh => h (by cases hh; rfl))
  | .str a, .str b =>
    if h : a = b then isTrue (by rw [h]) else isFalse (fun hh => h (by cases hh; rfl))
  | .arr a, .arr b =>
    match Json.decEqList a b with
    | isTrue h => isTrue (by rw [h])
    | isFalse h => isFalse (fun hh => h (by cases hh; rfl))
  | .obj a, .obj b =>
    match Json.decEqFields a b with
    | isTrue h => isTrue (by rw [h])
    | isFalse h => isFalse (fun hh => h (by cases hh; rfl))
  | .null, .bool _ | .null, .num _ | .null, .str _ | .null, .arr _ | .null, .obj _
  | .bool _, .null | .bool _, .num _ | .bool _, .str _ | .bool _, .arr _ | .bool _, .obj _
  | .num _, .null | .num _, .bool _ | .num _, .str _ | .num _, .arr _ | .num _, .obj _
  | .str _, .null | .str _, .bool _ | .str _, .num _ | .str _, .arr _ | .str _, .obj _
  | .arr _, .null | .arr _, .bool _ | .arr _, .num _ | .arr _, .str _ | .arr _, .obj _
  | .obj _, .null | .obj _, .bool _ | .obj _, .num _ | .obj _, .str _ | .obj _, .arr _ =>
    isFalse (fun h => Json.noConfusion h)

/-- Decidable equality on lists of JSON values. -/
def Json.decEqList : (a b : List Json) → Decidable (a = b)
  | [], [] => isTrue rfl
  | x :: xs, y :: ys =>
    match Json.decEq x y, Json.decEqList xs ys with
    | isTrue h1, isTrue h2 => isTrue (by rw [h1, h2])
    | isFalse h1, _ => isFalse (fun hh => h1 (by cases hh; rfl))
    | _, isFalse h2 => isFalse (fun hh => h2 (by cases hh; rfl))
  | [], _ :: _ => isFalse (fun h => List.noConfusion h)
  | _ :: _, [] => isFalse (fun h => List.noConfusion h)

/-- Decidable equality on JSON object field lists. -/
def Json.decEqFields : (a b : List (String × Json)) → Decidable (a = b)
  | [], [] => isTrue rfl
  | (k1, v1) :: xs, (k2, v2) :: ys =>
    if hk : k1 = k2 then
      match Json.decEq v1 v2, Json.decEqFields xs ys with
      | isTrue h1, isTrue h2 => isTrue (by rw [hk, h1, h2])
      | isFalse h1, _ => isFalse (fun hh => h1 (by cases hh; rfl))
      | _, isFalse h2 => isFalse (fun hh => h2 (by cases hh; rfl))
    else isFalse (fun hh => hk (by cases hh; rfl))
  | [], _ :: _ => isFalse (fun h => List.noConfusion h)
  | _ :: _, [] => isFalse (fun h => List.noConfusion h)

end

instance : DecidableEq Json := Json.decEq

/-- `fields.get(key, default)` for an already-matched JSON object. -/
def objGetD (fields : List (String × Json)) (key : String) (dflt : Json) : Json :=
  (alookup key fields).getD dflt

/-- `dict.get(key, default)`; on a non-dict, Python's `.get` attribute lookup
raises (`AttributeError`). -/
def Json.getD (j : Json) (key : String) (dflt : Json) : Except PyErr Json :=
  match j with
  | .obj fields => .ok (objGetD fields key dflt)
  | _ => .error (.typeError "object has no attribute get")

/-- Python truthiness of a JSON value. -/
def Json.truthy : Json → Bool
  | .null => false
  | .bool b => b
  | .num q => q != 0
  | .str s => s != ""
  | .arr l => !l.isEmpty
  | .obj f => !f.isEmpty

/-- A JSON value read as a Python number for arithmetic/comparison purposes
(`bool` is an `int` in Python); `none` marks the values whose comparison with
a number raises `TypeError`. -/
def Json.asNum : Json → Option ℚ
  | .num q => some q
  | .bool b => some (if b then 1 else 0)
  | _ => none

/-- Whether the value may be used as a `dict` key (`list`/`dict` are unhashable). -/
def Json.hashable : Json → Bool
  | .arr _ => false
  | .obj _ => false
  | _ => true

/-! ## String helpers (Python `in`, `.upper()`, number formatting) -/

/-- `needle` is a prefix of `hay` (on character lists). -/
def listHasPrefix : List Char → List Char → Bool
  | [], _ => true
  | _ :: _, [] => false
  | a :: as, b :: bs => a == b && listHasPrefix as bs

/-- `needle` occurs somewhere in the character list. -/
def listHasSub (needle : List Char) : List Char → Bool
  | [] => listHasPrefix needle []
  | c :: cs => listHasPrefix needle (c :: cs) || listHasSub needle cs

/-- Python's substring test `needle in hay`. -/
def strContains (hay needle : String) : Bool :=
  listHasSub needle.data hay.data

/-- Round half to even, the rounding used by Python's numeric formatting.
(The source formats binary doubles; on the repository's decimal quantities the
two agree.) -/
def bankersRound (q : ℚ) : ℤ :=
  let f := ⌊q⌋
  let r := q - f
  if r < 1 / 2 then f
  else if 1 / 2 < r then f + 1
  else if f % 2 = 0 then f else f + 1

/-- Insert thousands separators into a digit string (grouping from the right). -/
def commaGroup (s : String) : String :=
  let rec go : List Char → List Char
    | a :: b :: c :: rest@(_ :: _) => a :: b :: c :: ',' :: go rest
    | l => l
  String.mk ((go s.data.reverse).reverse)

/-- Python's `format(q, ",.0f")`. -/
def fmtComma0 (q : ℚ) : String :=
  let n := bankersRound q
  (if n < 0 then "-" else "") ++ commaGroup (toString n.natAbs)

/-- Python's `format(q, ",.2f")`. -/
def fmtComma2 (q : ℚ) : String :=
  let c := bankersRound (q * 100)
  let cents := c.natAbs % 100
  let centsStr := (if cents < 10 then "0" else "") ++ toString cents
  (if c < 0 then "-" else "") ++ commaGroup (toString (c.natAbs / 100)) ++ "." ++ centsStr

/-! ## `src/config.py` (AML app) — the settings read by the tools -/

/-- `settings.ctr_threshold`, default `10000.0`. -/
def ctr_threshold : ℚ := 10000

/-- `settings.sar_risk_threshold`, default `7.0`. -/
def sar_risk_threshold : ℚ := 7

/-! ## `src/data/mock_data.py` -/

/-- One record of the `MOCK_CUSTOMERS` dict (the fields the tools read). -/
structure CustomerRec where
  name : String
  occupation : String
  annual_income : ℚ
  account_age_years : ℚ
  risk_score : ℚ
  previous_sars : ℕ
  previous_ctrs : ℕ
  pep_status : Bool
  high_risk_country : Bool
  negative_news : Bool
  business_type : Option String
  cash_intensive_business : Bool
  deriving DecidableEq, Repr

/-- The fixed three-customer store. -/
def MOCK_CUSTOMERS : List (String × CustomerRec) :=
  [ ("CUST_001",
      { name := "Maria Santos", occupation := "Restaurant Manager",
        annual_income := 54000, account_age_years := 3.5, risk_score := 6.2,
        previous_sars := 0, previous_ctrs := 2, pep_status := false,
        high_risk_country := false, negative_news := false,
        business_type := some "Restaurant", cash_intensive_business := true }),
    ("CUST_002",
      { name := "John Davidson", occupation := "Import/Export Business Owner",
        annual_income := 180000, account_age_years := 7.2, risk_score := 7.8,
        previous_sars := 1, previous_ctrs := 15, pep_status := false,
        high_risk_country := true, negative_news := false,
        business_type := some "Import/Export", cash_intensive_business := true }),
    ("CUST_003",
      { name := "Sarah Chen", occupation := "Software Engineer",
        annual_income := 125000, account_age_years := 5.0, risk_score := 2.1,
        previous_sars := 0, previous_ctrs := 0, pep_status := false,
        high_risk_country := false, negative_news := false,
        business_type := none, cash_intensive_business := false }) ]

/-- One entry of the mock negative-news feed. -/
structure NewsItem where
  source : String
  date : String
  headline : String
  relevance : String
  summary : String
  deriving DecidableEq, Repr

/-- The fixed negative-news store: one medium-relevance item for John Davidson. -/
def MOCK_NEGATIVE_NEWS : List (String × List NewsItem) :=
  [ ("Maria Santos", []),
    ("John Davidson",
      [ { source := "Financial Times", date := "2024-11-15",
          headline := "Import company under customs investigation",
          relevance := "medium",
          summary := "Company involved in customs valuation dispute" } ]),
    ("Sarah Chen", []) ]

/-- One record of a `MOCK_TRANSACTIONS` list (the fields the tools read;
`type` is renamed `ttype`, `type` being a Lean keyword). -/
structure Txn where
  transaction_id : String
  date : String
  amount : ℚ
  ttype : String
  deriving DecidableEq, Repr

/-- The fixed three-account transaction store. -/
def MOCK_TRANSACTIONS : List (String × List Txn) :=
  [ ("high_risk_account_001",
      [ ⟨"TXN_001", "2025-09-15", 9800, "cash_deposit"⟩,
        ⟨"TXN_002", "2025-09-14", 9750, "cash_deposit"⟩,
        ⟨"TXN_003", "2025-09-13", 9900, "cash_deposit"⟩,
        ⟨"TXN_004", "2025-09-12", 9850, "cash_deposit"⟩,
        ⟨"TXN_005", "2025-09-11", 9600, "cash_deposit"⟩ ]),
    ("business_account_002",
      [ ⟨"TXN_101", "2025-09-10", 45000, "wire_transfer_incoming"⟩,
        ⟨"TXN_102", "2025-09-08", 38000, "wire_transfer_outgoing"⟩,
        ⟨"TXN_103", "2025-09-05", 52000, "wire_transfer_incoming"⟩ ]),
    ("normal_account",
      [ ⟨"TXN_201", "2025-09-15", 3200, "paycheck_deposit"⟩,
        ⟨"TXN_202", "2025-09-10", 1500, "rent_payment"⟩,
        ⟨"TXN_203", "2025-09-05", 250, "atm_withdrawal"⟩ ]) ]

/-- `get_mock_customer`. -/
def get_mock_customer (customer_id : String) : Option CustomerRec :=
  alookup customer_id MOCK_CUSTOMERS

/-- `get_mock_transactions`; the `days` argument is accepted but unused, and an
absent account yields `[]`. The store is a parameter so that statements can
range over arbitrary account contents; the program instantiates it with
`MOCK_TRANSACTIONS`. -/
def get_mock_transactions (store : List (String × List Txn)) (account_id : String)
    (_days : ℤ) : List Txn :=
  (alookup account_id store).getD []

/-- `get_mock_negative_news`. -/
def get_mock_negative_news (customer_name : String) : List NewsItem :=
  (alookup customer_name MOCK_NEGATIVE_NEWS).getD []

/-! ## `src/tools/customer_tools.py` -/

/-- `get_customer_profile` (with `enable_mock_data` true, the default):
`none` models the `{"customer_id": ..., "error": "Customer not found"}` dict. -/
def get_customer_profile (customer_id : String) : Option CustomerRec :=
  get_mock_customer customer_id

/-- The dict returned by `search_negative_news`. -/
structure NewsSearchResult where
  customer_name : String
  search_date : String
  items_found : ℕ
  news_items : List NewsItem
  high_risk_items : List NewsItem
  requires_review : Bool
  deriving DecidableEq, Repr

/-- `search_negative_news` (mock path). -/
def search_negative_news (customer_name : String) : NewsSearchResult :=
  let news_items := get_mock_negative_news customer_name
  { customer_name := customer_name
    search_date := "2026-01-10"
    items_found := news_items.length
    news_items := news_items
    high_risk_items := news_items.filter (fun item => item.relevance == "high")
    requires_review := news_items.length > 0 }

/-- Truthiness of an optional string (`None` and `""` are falsy). -/
def truthyOptStr : Option String → Bool
  | none => false
  | some s => s != ""

/-- The module-level helper `_get_risk_recommendation` (defined in the source,
but never successfully reached — see `assess_customer_risk`). -/
def get_risk_recommendation (risk_level : String) (_risk_score : ℚ) : String :=
  if risk_level = "critical" then
    "Immediate enhanced due diligence required. Consider account restrictions pending review."
  else if risk_level = "high" then
    "Enhanced due diligence required. Increase transaction monitoring frequency."
  else if risk_level = "medium" then
    "Standard due diligence with elevated monitoring. Review quarterly."
  else
    "Standard monitoring procedures applicable."

/-- The unknown-customer return value of `assess_customer_risk` (the profile
error dict passed straight through). -/
inductive CustomerRiskOutcome
  | notFound (customer_id : String) (error : String)
  deriving DecidableEq, Repr

/-- `assess_customer_risk`. For an unknown customer the profile's error dict is
returned. For a known customer the function computes the adjusted score and
risk level, but the `return` dict literal then evaluates
`self._get_risk_recommendation(...)` — `self` is unbound inside this
module-level function, so Python raises `NameError` before anything is
returned. -/
def assess_customer_risk (customer_id : String) : Except PyErr CustomerRiskOutcome :=
  match get_customer_profile customer_id with
  | none => .ok (.notFound customer_id "Customer not found")
  | some profile =>
    let news := search_negative_news profile.name
    let s0 := profile.risk_score
    let s1 := if profile.pep_status then s0 + 2 else s0
    let s2 := if profile.high_risk_country then s1 + 1.5 else s1
    let s3 := if profile.cash_intensive_business then s2 + 1 else s2
    let s4 := if profile.previous_sars > 0 then s3 + profile.previous_sars * 2 else s3
    let s5 := if news.items_found > 0 then s4 + news.items_found * 1.5 else s4
    let s6 :=
      if truthyOptStr profile.business_type && decide (profile.annual_income < 60000)
      then s5 + 0.5 else s5
    let risk_score := min s6 10
    let _risk_level : String :=
      if risk_score ≥ 8 then "critical"
      else if risk_score ≥ 6 then "high"
      else if risk_score ≥ 4 then "medium"
      else "low"
    .error (.nameError "self")

/-! ## `src/tools/transaction_tools.py` -/

/-- The summary statistics computed by `get_transaction_history` on a
non-empty transaction list. -/
structure TransactionHistoryStats where
  account_id : String
  period_days : ℤ
  transaction_count : ℕ
  total_amount : ℚ
  transactions : List Txn
  cash_deposit_count : ℕ
  cash_withdrawal_count : ℕ
  wire_transfer_count : ℕ
  avg_transaction_amount : ℚ
  max_transaction_amount : ℚ
  min_transaction_amount : ℚ
  deriving DecidableEq, Repr

/-- The result of `get_transaction_history`: either the zero-filled dict with
the `"No transactions found for this account"` error marker, or the
statistics. -/
inductive TransactionHistory
  | noTransactions (account_id : String) (period_days : ℤ)
  | history (h : TransactionHistoryStats)
  deriving DecidableEq, Repr

/-- Maximum of a list of amounts, `0` on the empty list (`max(l) if l else 0`). -/
def maxAmount : List ℚ → ℚ
  | [] => 0
  | a :: as => as.foldl max a

/-- Minimum of a list of amounts, `0` on the empty list. -/
def minAmount : List ℚ → ℚ
  | [] => 0
  | a :: as => as.foldl min a

/-- `get_transaction_history` (mock path). -/
def get_transaction_history (store : List (String × List Txn)) (account_id : String)
    (days : ℤ) : TransactionHistory :=
  let transactions := get_mock_transactions store account_id days
  if transactions.isEmpty then .noTransactions account_id days
  else
    let amounts := transactions.map (·.amount)
    let total_amount := amounts.sum
    .history
      { account_id := account_id
        period_days := days
        transaction_count := transactions.length
        total_amount := total_amount
        transactions := transactions
        cash_deposit_count := (transactions.filter (fun t => t.ttype == "cash_deposit")).length
        cash_withdrawal_count := (transactions.filter (fun t => t.ttype == "cash_withdrawal")).length
        wire_transfer_count := (transactions.filter (fun t => strContains t.ttype "wire")).length
        avg_transaction_amount := total_amount / transactions.length
        max_transaction_amount := maxAmount amounts
        min_transaction_amount := minAmount amounts }

/-- One entry of `patterns_detected`. The numeric payload is the pattern's
`transactions` count, except for `multiple_daily_transactions` where the
source stores the day count under the key `days`. -/
structure PatternRec where
  pattern : String
  description : String
  severity : String
  count : ℕ
  deriving DecidableEq, Repr

/-- The pattern-analysis dict built by `analyze_transaction_patterns`. -/
structure PatternsResult where
  account_id : String
  analysis_period_days : ℤ
  patterns_detected : List PatternRec
  risk_indicators : List String
  overall_risk : String
  deriving DecidableEq, Repr

/-- `amount % 100 == 0` on an exact rational. -/
def isMultipleOf100 (a : ℚ) : Bool :=
  (a / 100).den == 1

/-- The body of `analyze_transaction_patterns` once a non-empty transaction
list is in hand. -/
def analyzePatternsCore (account_id : String) (days : ℤ) (transactions : List Txn) :
    PatternsResult :=
  let under_threshold :=
    transactions.filter (fun t => decide (t.amount < 10000) && decide (t.amount > 9000))
  let structuringHit := under_threshold.length ≥ 3
  let p1 : List PatternRec :=
    if structuringHit then
      [ { pattern := "potential_structuring"
          description := "Found " ++ toString under_threshold.length ++
            " transactions between $9,000 and $10,000"
          severity := "high", count := under_threshold.length } ]
    else []
  let i1 : List String := if structuringHit then ["Structuring to avoid CTR reporting"] else []
  let velocityHit := transactions.length > 10 ∧ days ≤ 14
  let p2 : List PatternRec :=
    if velocityHit then
      [ { pattern := "high_velocity"
          description := toString transactions.length ++ " transactions in " ++
            toString days ++ " days"
          severity := "medium", count := transactions.length } ]
    else []
  let i2 : List String := if velocityHit then ["Unusual transaction velocity"] else []
  let round_amounts := transactions.filter (fun t => isMultipleOf100 t.amount)
  let p3 : List PatternRec :=
    if (round_amounts.length : ℚ) / transactions.length > 0.7 then
      [ { pattern := "round_amounts"
          description := toString round_amounts.length ++ " of " ++
            toString transactions.length ++ " are round amounts"
          severity := "low", count := round_amounts.length } ]
    else []
  let dates := transactions.map (·.date)
  let multiple_per_day := dates.eraseDups.filter (fun d => dates.count d > 1)
  let p4 : List PatternRec :=
    if multiple_per_day.length ≥ 2 then
      [ { pattern := "multiple_daily_transactions"
          description := "Multiple transactions on same day detected on " ++
            toString multiple_per_day.length ++ " days"
          severity := "medium", count := multiple_per_day.length } ]
    else []
  let patterns_detected := p1 ++ p2 ++ p3 ++ p4
  let high_risk_patterns := (patterns_detected.filter (fun p => p.severity == "high")).length
  let medium_risk_patterns := (patterns_detected.filter (fun p => p.severity == "medium")).length
  { account_id := account_id
    analysis_period_days := days
    patterns_detected := patterns_detected
    risk_indicators := i1 ++ i2
    overall_risk :=
      if high_risk_patterns > 0 then "high"
      else if medium_risk_patterns ≥ 2 then "high"
      else if medium_risk_patterns > 0 then "medium"
      else "low" }

/-- The result of `analyze_transaction_patterns`: the history's error dict is
passed straight through when the account has no transactions. -/
inductive PatternAnalysis
  | err (h : TransactionHistory)
  | patterns (p : PatternsResult)
  deriving DecidableEq, Repr

/-- `analyze_transaction_patterns`. -/
def analyze_transaction_patterns (store : List (String × List Txn))
    (account_id : String) (days : ℤ) : PatternAnalysis :=
  match get_transaction_history store account_id days with
  | .noTransactions a d => .err (.noTransactions a d)
  | .history hs => .patterns (analyzePatternsCore account_id days hs.transactions)

/-! ## `src/tools/regulatory_tools.py` — `assess_structuring_risk` -/

/-- The success dict of `assess_structuring_risk`. Indicator entries are kept
as the JSON-like dicts the source builds. -/
structure StructuringResult where
  structuring_risk_level : String
  indicators_found : ℕ
  indicators : List Json
  transactions_analyzed : ℕ
  under_threshold_transactions : ℕ
  total_amount : ℚ
  sar_recommended : Bool

/-- The result of `assess_structuring_risk`: the empty-input error dict
`{"error": "No transactions provided"}` or the assessment. -/
inductive StructuringOutcome
  | err (msg : String)
  | res (r : StructuringResult)

/-- The under-threshold filter of `assess_structuring_risk`, keeping each
transaction together with its numeric amount. `t.get` on a non-dict raises,
as does comparing a non-numeric amount with the threshold. -/
def underThresholdFilter : List Json → Except PyErr (List (Json × ℚ))
  | [] => .ok []
  | t :: ts =>
    match t with
    | .obj fields =>
      match (objGetD fields "amount" (.num 0)).asNum with
      | some a => do
        let rest ← underThresholdFilter ts
        if decide (a < ctr_threshold) && decide (a > ctr_threshold * 0.9) then
          pure ((t, a) :: rest)
        else
          pure rest
      | none => .error (.typeError "not supported between instances of str and float")
    | _ => .error (.typeError "object has no attribute get")

/-- The `dates` accumulation of `assess_structuring_risk`: each under-threshold
transaction's `date` value, when truthy, becomes a dict key (so an unhashable
date raises). -/
def structuringDates : List Json → Except PyErr (List Json)
  | [] => .ok []
  | t :: ts =>
    match t with
    | .obj fields => do
      let d := objGetD fields "date" .null
      let rest ← structuringDates ts
      if d.truthy then
        if d.hashable then pure (d :: rest)
        else .error (.typeError "unhashable type")
      else
        pure rest
    | _ => .error (.typeError "object has no attribute get")

/-- `assess_structuring_risk`. -/
def assess_structuring_risk (transactions : List Json) :
    Except PyErr StructuringOutcome :=
  if transactions.isEmpty then .ok (.err "No transactions provided")
  else do
    let under_pairs ← underThresholdFilter transactions
    let under_threshold := under_pairs.map Prod.fst
    let ind1 : List Json :=
      if under_threshold.length ≥ 2 then
        [ .obj [ ("indicator", .str "multiple_under_threshold"),
                 ("count", .num under_threshold.length),
                 ("description", .str (toString under_threshold.length ++
                   " transactions between $" ++ fmtComma0 (ctr_threshold * 0.9) ++
                   " and $" ++ fmtComma0 ctr_threshold)) ] ]
      else []
    let total_amount := (under_pairs.map Prod.snd).sum
    let ind2 : List Json :=
      if total_amount ≥ ctr_threshold ∧ under_threshold.length ≥ 2 then
        [ .obj [ ("indicator", .str "total_exceeds_threshold"),
                 ("total_amount", .num total_amount),
                 ("description", .str ("Combined amount $" ++ fmtComma2 total_amount ++
                   " exceeds CTR threshold")) ] ]
      else []
    let dates ← structuringDates under_threshold
    let same_day_count := (dates.eraseDups.filter (fun d => dates.count d > 1)).length
    let ind3 : List Json :=
      if same_day_count > 0 then
        [ .obj [ ("indicator", .str "same_day_transactions"),
                 ("count", .num same_day_count),
                 ("description", .str ("Multiple under-threshold transactions on " ++
                   toString same_day_count ++ " day(s)")) ] ]
      else []
    let structuring_indicators := ind1 ++ ind2 ++ ind3
    let risk_level : String :=
      if structuring_indicators.length ≥ 3 then "critical"
      else if structuring_indicators.length ≥ 2 then "high"
      else if structuring_indicators.length ≥ 1 then "medium"
      else "low"
    pure (.res
      { structuring_risk_level := risk_level
        indicators_found := structuring_indicators.length
        indicators := structuring_indicators
        transactions_analyzed := transactions.length
        under_threshold_transactions := under_threshold.length
        total_amount := if under_threshold.isEmpty then 0 else total_amount
        sar_recommended := risk_level == "critical" || risk_level == "high" })

/-! ## Spec-side views used to state claims about `assess_structuring_risk`

These definitions phrase the claim's conditions ("transactions strictly
between 90% of the CTR threshold and the threshold", "any date has more than
one such transaction") over the same JSON transactions the source consumes;
they are statement devices, not source translations. -/

/-- Spec-side: the numeric amount of a transaction dict (`0` outside the
well-formed inputs the claim quantifies over). -/
def specAmount : Json → ℚ
  | .obj f =>
    match objGetD f "amount" (.num 0) with
    | .num a => a
    | _ => 0
  | _ => 0

/-- Spec-side: the `date` value of a transaction dict. -/
def specDate : Json → Json
  | .obj f => objGetD f "date" .null
  | _ => .null

/-- Spec-side: amount strictly between 90% of the $10,000 CTR threshold and
the threshold itself. -/
def specUnder (t : Json) : Bool :=
  decide (specAmount t < 10000) && decide (specAmount t > 9000)

/-- Spec-side: a well-formed transaction for the claim — a dict whose amount
is numeric and whose date is a non-empty string. -/
def specWfTxn : Json → Bool
  | .obj f =>
    (match objGetD f "amount" (.num 0) with
     | .num _ => true
     | _ => false) &&
    (match objGetD f "date" .null with
     | .str d => d != ""
     | _ => false)
  | _ => false

/-- Whether an indicator entry with the given name is present in an
`assess_structuring_risk` result. -/
def hasIndicator (inds : List Json) (name : String) : Bool :=
  inds.any fun j =>
    (match j with
     | .obj f => objGetD f "indicator" .null
     | _ => .null) == Json.str name

/-! ## Python `str()`/`repr()` rendering of JSON values

Used only inside description strings. `Json` conflates ints and floats, so an
integral number renders as an int; in the repository's runs the values
rendered this way are ints. -/

/-- Decimal rendering of a rational whose denominator divides a power of ten;
falls back to the raw rational otherwise. -/
def decimalRepr (q : ℚ) : String :=
  let rec go (k : ℕ) : Option ℕ :=
    match k with
    | 0 => none
    | k' + 1 => if (q * (10 : ℚ) ^ (21 - k)).den = 1 then some (21 - k) else go k'
  match go 20 with
  | some k =>
    let scaled := (q * (10 : ℚ) ^ k).num
    let sign := if scaled < 0 then "-" else ""
    let digits := toString scaled.natAbs
    let padded := (String.mk (List.replicate (k + 1 - digits.length) '0')) ++ digits
    let intPart := padded.dropRight k
    let fracPart := padded.takeRight k
    sign ++ intPart ++ "." ++ fracPart
  | none => toString q

mutual

/-- Python `repr` of a JSON value (string escaping inside reprs is elided). -/
def pyRepr : Json → String
  | .null => "None"
  | .bool b => if b then "True" else "False"
  | .num q => if q.den = 1 then toString q.num else decimalRepr q
  | .str s => "'" ++ s ++ "'"
  | .arr l => "[" ++ pyReprList l ++ "]"
  | .obj f => "\x7b" ++ pyReprFields f ++ "\x7d"

/-- Comma-joined reprs of array elements. -/
def pyReprList : List Json → String
  | [] => ""
  | [x] => pyRepr x
  | x :: rest => pyRepr x ++ ", " ++ pyReprList rest

/-- Comma-joined reprs of object fields. -/
def pyReprFields : List (String × Json) → String
  | [] => ""
  | [(k, v)] => "'" ++ k ++ "': " ++ pyRepr v
  | (k, v) :: rest => "'" ++ k ++ "': " ++ pyRepr v ++ ", " ++ pyReprFields rest

end

/-- Python `str` of a JSON value (as interpolated by an f-string). -/
def pyStr : Json → String
  | .str s => s
  | j => pyRepr j

/-! ## `src/models/investigation_result.py` -/

/-- The `Evidence` pydantic model (timestamp omitted: wall-clock only). -/
structure Evidence where
  evidence_type : String
  description : String
  severity : String
  source : String
  data : Json

/-- The `ToolExecution` pydantic model (timestamp and execution time omitted:
wall-clock only). Construction in the investigator validates that
`parameters` and `result` are dicts. -/
structure ToolExecution where
  tool_name : String
  parameters : Json
  result : Json
  success : Bool
  error : Option String

/-- The `InvestigationResult` pydantic model (timestamps, duration and the
model name omitted: wall-clock/configuration metadata only). Its
`final_risk_score` field carries the pydantic constraint `ge=0, le=10`,
enforced at construction. -/
structure InvestigationResult where
  case_id : String
  investigation_id : String
  status : String
  iterations : ℕ
  tool_executions : List ToolExecution
  evidence : List Evidence
  key_findings : List String
  final_risk_score : ℚ
  risk_factors : List String
  recommendation : String
  sar_required : Bool
  sar_reasoning : Option String
  next_steps : List String
  escalation_required : Bool
  reasoning_trace : List String

/-! ## `src/investigators/react_investigator.py` -/

/-- A JSON value read as a string, for pydantic `str` fields. -/
def Json.asStr : Json → Option String
  | .str s => some s
  | _ => none

/-- Python iteration over a JSON value: lists yield elements, strings yield
characters, dicts yield keys, everything else raises `TypeError`. -/
def pyIter : Json → Except PyErr (List Json)
  | .arr l => .ok l
  | .str s => .ok (s.data.map fun c => .str (String.mk [c]))
  | .obj fields => .ok (fields.map fun kv => .str kv.1)
  | _ => .error (.typeError "object is not iterable")

/-- `dict.get(key, default)` for values the surrounding code has already
guaranteed to be dicts (pydantic `dict` fields of `ToolExecution`). -/
def resultGetD (r : Json) (key : String) (dflt : Json) : Json :=
  match r with
  | .obj fields => objGetD fields key dflt
  | _ => dflt

/-- One `patterns_detected` entry turned into `Evidence` by
`_extract_evidence`; a non-dict entry or a non-string description/severity
raises. -/
def patternEvidence (source : String) (p : Json) : Except PyErr Evidence := do
  let desc ← p.getD "description" (.str "")
  let sev ← p.getD "severity" (.str "medium")
  match desc.asStr, sev.asStr with
  | some d, some s =>
    .ok { evidence_type := "transaction_pattern", description := d, severity := s,
          source := source, data := p }
  | _, _ => .error (.validationError "Evidence field must be a string")

/-- One `risk_factors` entry turned into `Evidence`; `factor.lower()` raises
on a non-string factor. -/
def riskFactorEvidence (source : String) (factor : Json) : Except PyErr Evidence :=
  match factor.asStr with
  | some f =>
    .ok { evidence_type := "risk_factor", description := f,
          severity := if strContains f.toLower "previous" then "high" else "medium",
          source := source, data := .obj [("risk_factor", .str f)] }
  | none => .error (.typeError "object has no attribute lower")

/-- `ReACTInvestigator._extract_evidence` applied to one tool-execution result
dict (split into its `success`, `tool` and `result` components). -/
def extract_evidence (success : Bool) (tool_name : String) (result_data : Json) :
    Except PyErr (List Evidence) :=
  if !success then .ok []
  else if tool_name = "analyze_transaction_patterns" then do
    let patterns ← result_data.getD "patterns_detected" (.arr [])
    let items ← pyIter patterns
    items.mapM (patternEvidence tool_name)
  else if tool_name = "assess_customer_risk" then do
    let factors ← result_data.getD "risk_factors" (.arr [])
    let items ← pyIter factors
    items.mapM (riskFactorEvidence tool_name)
  else if tool_name = "assess_structuring_risk" then do
    let sar ← result_data.getD "sar_recommended" .null
    if sar.truthy then
      let found ← result_data.getD "indicators_found" (.num 0)
      .ok [ { evidence_type := "structuring",
              description := "Structuring indicators found: " ++ pyStr found,
              severity := "critical", source := tool_name, data := result_data } ]
    else .ok []
  else if tool_name = "check_regulatory_thresholds" then do
    let ps ← result_data.getD "potential_structuring" .null
    if ps.truthy then
      let amount ← result_data.getD "amount" .null
      .ok [ { evidence_type := "regulatory",
              description := "Transaction $" ++ pyStr amount ++ " below CTR threshold",
              severity := "high", source := tool_name, data := result_data } ]
    else .ok []
  else .ok []

/-- `ReACTInvestigator._calculate_final_risk_score`. The first execution named
`calculate_risk_score` or `assess_customer_risk` supplies the score (its
`success` flag is never consulted); only when no such execution exists does
the evidence-severity heuristic run. The returned JSON value is whatever
`result.get` produced. -/
def calculate_final_risk_score : List ToolExecution → List Evidence → Json
  | [], evidence =>
    .num (min (evidence.foldl (fun acc e =>
      acc + (if e.severity = "critical" then 2
             else if e.severity = "high" then 1
             else if e.severity = "medium" then 0.5 else 0)) 5) 10)
  | exec :: rest, evidence =>
    if exec.tool_name = "calculate_risk_score" then
      resultGetD exec.result "final_risk_score" (.num 5)
    else if exec.tool_name = "assess_customer_risk" then
      resultGetD exec.result "adjusted_risk_score" (.num 5)
    else
      calculate_final_risk_score rest evidence

/-- `ReACTInvestigator._extract_key_findings`. -/
def extract_key_findings (evidence : List Evidence) : List String :=
  ((evidence.filter fun e => e.severity == "high" || e.severity == "critical").map
    (·.description)).take 5

/-- `ReACTInvestigator._generate_recommendation`. -/
def generate_recommendation (risk_score : ℚ) (sar_required : Bool)
    (evidence : List Evidence) : String :=
  if sar_required then
    let critical_count := (evidence.filter fun e => e.severity == "critical").length
    if critical_count > 0 then
      "FILE SAR IMMEDIATELY - Critical evidence detected (" ++
        toString critical_count ++ " critical indicators)"
    else "FILE SAR - Suspicious activity confirmed with substantial evidence"
  else if risk_score ≥ 6 then "ENHANCED MONITORING - Elevated risk requires increased scrutiny"
  else if risk_score ≥ 4 then "CONTINUED MONITORING - Maintain standard monitoring procedures"
  else "STANDARD MONITORING - No immediate concerns identified"

/-- `ReACTInvestigator._generate_sar_reasoning` (called only when SAR is
required). -/
def generate_sar_reasoning (evidence : List Evidence) : String :=
  "SAR filing recommended based on:\n" ++
    String.intercalate "\n"
      (((evidence.filter fun e => e.severity == "critical" || e.severity == "high").map
        (fun e => "- " ++ e.description)).take 5)

/-- `ReACTInvestigator._determine_next_steps`. -/
def determine_next_steps (sar_required : Bool) (risk_score : ℚ)
    (evidence : List Evidence) : List String :=
  let s1 :=
    if sar_required then
      [ "File Suspicious Activity Report (SAR) within required timeframe",
        "Document all evidence and investigation steps",
        "Notify compliance management" ]
    else []
  let s2 :=
    if risk_score ≥ 7 then
      [ "Enhanced Due Diligence (EDD) required",
        "Increase transaction monitoring frequency to daily" ]
    else []
  let s3 :=
    if evidence.any (fun e => e.evidence_type == "structuring") then
      [ "Review historical transactions for similar patterns",
        "Check for related accounts or beneficiaries" ]
    else []
  let steps := s1 ++ s2 ++ s3
  if steps.isEmpty then ["Continue standard monitoring", "Review case in 30 days"] else steps

/-- `ReACTInvestigator._compile_results`. Comparing a non-numeric score with
the SAR threshold raises `TypeError`; constructing the result with a score
outside pydantic's `[0, 10]` bound raises `ValidationError`. -/
def compile_results (case_id investigation_id : String)
    (tool_executions : List ToolExecution) (evidence : List Evidence)
    (reasoning_trace : List String) : Except PyErr InvestigationResult :=
  match (calculate_final_risk_score tool_executions evidence).asNum with
  | none => .error (.typeError "not supported between instances")
  | some risk_score =>
    let sar_required :=
      decide (risk_score ≥ sar_risk_threshold) ||
        evidence.any (fun e => e.severity == "critical")
    if 0 ≤ risk_score ∧ risk_score ≤ 10 then
      .ok
        { case_id := case_id
          investigation_id := investigation_id
          status := "completed"
          iterations := reasoning_trace.length
          tool_executions := tool_executions
          evidence := evidence
          key_findings := extract_key_findings evidence
          final_risk_score := risk_score
          risk_factors := (evidence.filter fun e => e.evidence_type == "risk_factor").map
            (·.description)
          recommendation := generate_recommendation risk_score sar_required evidence
          sar_required := sar_required
          sar_reasoning :=
            if sar_required then some (generate_sar_reasoning evidence) else none
          next_steps := determine_next_steps sar_required risk_score evidence
          escalation_required := decide (risk_score ≥ 9)
          reasoning_trace := reasoning_trace }
    else .error (.validationError "final_risk_score out of range")

/-! ## `src/investigators/fraud_agent.py` — result compilation -/

/-- `FraudDetectionAgent._calculate_fraud_score`. -/
def calculate_fraud_score : List ToolExecution → List Evidence → Json
  | [], evidence =>
    .num (min (evidence.foldl (fun acc e =>
      acc + (if e.severity = "critical" then 3
             else if e.severity = "high" then 2
             else if e.severity = "medium" then 1 else 0)) 0) 10)
  | exec :: rest, evidence =>
    if exec.tool_name = "assess_fraud_probability" then
      resultGetD exec.result "overall_risk_score" (.num 5)
    else
      calculate_fraud_score rest evidence

/-- `FraudDetectionAgent._compile_fraud_results`. The decision ladder on the
final fraud score selects the recommendation and its single action string. -/
def compile_fraud_results (case_id investigation_id : String)
    (tool_executions : List ToolExecution) (evidence : List Evidence)
    (reasoning_trace : List String) (fraud_indicators : List String) :
    Except PyErr InvestigationResult :=
  match (calculate_fraud_score tool_executions evidence).asNum with
  | none => .error (.typeError "not supported between instances")
  | some fraud_score =>
    let da : String × String :=
      if fraud_score ≥ 8 then
        ("CONFIRMED FRAUD", "Block account immediately and contact customer")
      else if fraud_score ≥ 6 then
        ("SUSPECTED FRAUD - High Probability",
         "Block transactions and initiate customer verification")
      else if fraud_score ≥ 4 then
        ("SUSPECTED FRAUD - Medium Probability",
         "Enhanced monitoring and step-up authentication")
      else if fraud_score ≥ 2 then
        ("NEEDS REVIEW", "Monitor closely for additional indicators")
      else
        ("LEGITIMATE ACTIVITY", "No action required - continue normal monitoring")
    if 0 ≤ fraud_score ∧ fraud_score ≤ 10 then
      .ok
        { case_id := case_id
          investigation_id := investigation_id
          status := "completed"
          iterations := reasoning_trace.length
          tool_executions := tool_executions
          evidence := evidence
          key_findings := ((evidence.filter fun e =>
            e.severity == "high" || e.severity == "critical").map (·.description)).take 5
          final_risk_score := fraud_score
          risk_factors := fraud_indicators
          recommendation := da.1
          sar_required := decide (fraud_score ≥ 7)
          sar_reasoning :=
            if fraud_score ≥ 7 then
              some ("Fraud score: " ++ pyStr (.num fraud_score) ++ "/10. " ++ da.2)
            else none
          next_steps := [da.2]
          escalation_required := decide (fraud_score ≥ 8)
          reasoning_trace := reasoning_trace }
    else .error (.validationError "final_risk_score out of range")

/-! ## `src/tools/tool_executor.py` — extracting tool calls

`_extract_tool_calls` runs `re.finditer` with the pattern
```` ```json\s*(\{[\s\S]*?\})\s*``` ````. The scan below reproduces its
semantics: try each start position left to right; a match anchors on the
literal ```` ```json ````, skips whitespace, requires `{`, then lazily finds
the first `}` that is followed by whitespace and ```` ``` ````; scanning
resumes after the consumed match. -/

/-- The characters matched by the regex class `\s` (ASCII range). -/
def reWS (c : Char) : Bool :=
  c == ' ' || c == '\t' || c == '\n' || c == '\r' || c == '\x0b' || c == '\x0c'

/-- After a candidate closing `}`: whitespace then the literal ```` ``` ````. -/
def closesFence (t : List Char) : Bool :=
  listHasPrefix ['`', '`', '`'] (t.dropWhile reWS)

/-- Lazy search for the first `}` whose tail closes the fence. Returns the
captured characters (through that `}`) and the text after the closing
```` ``` ````. -/
def findEnd : List Char → Option (List Char × List Char)
  | [] => none
  | ch :: t =>
    if ch == '}' && closesFence t then
      some ([ch], (t.dropWhile reWS).drop 3)
    else
      match findEnd t with
      | some (cap, rem) => some (ch :: cap, rem)
      | none => none

/-- The fenced-block scanner, fuelled for structural recursion; the fuel is
ample whenever it bounds the input length. -/
def scanAux : ℕ → List Char → List (List Char)
  | 0, _ => []
  | _ + 1, [] => []
  | fuel + 1, c :: cs =>
    if listHasPrefix ['`', '`', '`', 'j', 's', 'o', 'n'] (c :: cs) then
      let after := ((c :: cs).drop 7).dropWhile reWS
      if after.head? = some '{' then
        match findEnd after.tail with
        | some (cap, rem) => ('{' :: cap) :: scanAux fuel rem
        | none => scanAux fuel cs
      else scanAux fuel cs
    else scanAux fuel cs

/-- All regex captures, in order of appearance. -/
def scanBlocks (l : List Char) : List (List Char) :=
  scanAux l.length l

/-! ## `json.loads` -/

/-- JSON whitespace (the four characters Python's `json` accepts). -/
def jsonWS (c : Char) : Bool :=
  c == ' ' || c == '\t' || c == '\n' || c == '\r'

/-- Hex digit value. -/
def hexVal (c : Char) : Option ℕ :=
  if '0' ≤ c ∧ c ≤ '9' then some (c.toNat - '0'.toNat)
  else if 'a' ≤ c ∧ c ≤ 'f' then some (c.toNat - 'a'.toNat + 10)
  else if 'A' ≤ c ∧ c ≤ 'F' then some (c.toNat - 'A'.toNat + 10)
  else none

/-- Parse a JSON string body (after the opening quote), fuelled. Unescaped
control characters and unknown escapes are rejected, as in strict-mode
`json.loads`; `\uXXXX` decodes to the code point (surrogate pairing elided). -/
def parseStringAux : ℕ → List Char → List Char → Option (String × List Char)
  | 0, _, _ => none
  | _ + 1, _, [] => none
  | fuel + 1, acc, c :: rest =>
    if c == '"' then some (String.mk acc.reverse, rest)
    else if c == '\\' then
      match rest with
      | [] => none
      | e :: rest' =>
        if e == '"' then parseStringAux fuel ('"' :: acc) rest'
        else if e == '\\' then parseStringAux fuel ('\\' :: acc) rest'
        else if e == '/' then parseStringAux fuel ('/' :: acc) rest'
        else if e == 'b' then parseStringAux fuel ('\x08' :: acc) rest'
        else if e == 'f' then parseStringAux fuel ('\x0c' :: acc) rest'
        else if e == 'n' then parseStringAux fuel ('\n' :: acc) rest'
        else if e == 'r' then parseStringAux fuel ('\r' :: acc) rest'
        else if e == 't' then parseStringAux fuel ('\t' :: acc) rest'
        else if e == 'u' then
          match rest' with
          | h1 :: h2 :: h3 :: h4 :: rest'' =>
            match hexVal h1, hexVal h2, hexVal h3, hexVal h4 with
            | some a, some b, some c', some d =>
              let n := ((a * 16 + b) * 16 + c') * 16 + d
              if h : n.isValidChar then
                parseStringAux fuel (Char.ofNatAux n h :: acc) rest''
              else parseStringAux fuel ('�' :: acc) rest''
            | _, _, _, _ => none
          | _ => none
        else none
    else if c.toNat < 32 then none
    else parseStringAux fuel (c :: acc) rest

/-- Digit span of a character list. -/
def digitSpan (l : List Char) : List Char × List Char :=
  (l.takeWhile Char.isDigit, l.dropWhile Char.isDigit)

/-- Natural number denoted by a digit string. -/
def digitsToNat (l : List Char) : ℕ :=
  l.foldl (fun acc c => acc * 10 + (c.toNat - '0'.toNat)) 0

/-- Parse a JSON number (grammar of RFC 8259: optional minus, integer part
with no leading zeros, optional fraction, optional exponent), as an exact
rational. -/
def parseNumber (l : List Char) : Option (ℚ × List Char) := do
  let (neg, l₁) := match l with
    | '-' :: t => (true, t)
    | _ => (false, l)
  let (intDigits, l₂) := digitSpan l₁
  if intDigits.isEmpty then none
  else if intDigits.head? = some '0' ∧ intDigits.length > 1 then none
  else
    let (fracDigits, l₃) :=
      match l₂ with
      | '.' :: t =>
        let (d, r) := digitSpan t
        (d, r)
      | _ => ([], l₂)
    if l₂.head? = some '.' ∧ fracDigits.isEmpty then none
    else
      let expParsed : Option (ℤ × List Char) :=
        match l₃ with
        | e :: t =>
          if e == 'e' || e == 'E' then
            let (esign, t') := match t with
              | '+' :: u => ((1 : ℤ), u)
              | '-' :: u => ((-1 : ℤ), u)
              | _ => ((1 : ℤ), t)
            let (expDigits, t'') := digitSpan t'
            if expDigits.isEmpty then none
            else some (esign * digitsToNat expDigits, t'')
          else some (0, l₃)
        | [] => some (0, l₃)
      match expParsed with
      | none => none
      | some (ex, rest) =>
        let mant : ℤ := digitsToNat (intDigits ++ fracDigits)
        let signed : ℤ := if neg then -mant else mant
        let scale : ℤ := ex - fracDigits.length
        let value : ℚ :=
          if scale ≥ 0 then (signed : ℚ) * (10 : ℚ) ^ scale.toNat
          else (signed : ℚ) / (10 : ℚ) ^ (-scale).toNat
        some (value, rest)

/-- Insert a key/value pair with Python dict semantics: an existing key keeps
its position and takes the new value, a new key is appended. -/
def insertField (fields : List (String × Json)) (k : String) (v : Json) :
    List (String × Json) :=
  match fields with
  | [] => [(k, v)]
  | (k', v') :: rest =>
    if k' = k then (k', v) :: rest else (k', v') :: insertField rest k v

mutual

/-- Parse one JSON value, fuelled (any fuel bounding the nesting depth is
ample; callers pass the input length). -/
def parseVal : ℕ → List Char → Option (Json × List Char)
  | 0, _ => none
  | fuel + 1, s =>
    match s.dropWhile jsonWS with
    | 'n' :: 'u' :: 'l' :: 'l' :: rest => some (.null, rest)
    | 't' :: 'r' :: 'u' :: 'e' :: rest => some (.bool true, rest)
    | 'f' :: 'a' :: 'l' :: 's' :: 'e' :: rest => some (.bool false, rest)
    | '"' :: rest =>
      (parseStringAux rest.length [] rest).map fun p => (.str p.1, p.2)
    | '[' :: rest => parseArrItems fuel (rest.dropWhile jsonWS) true
    | '{' :: rest => parseObjItems fuel (rest.dropWhile jsonWS) true []
    | c :: rest =>
      if c == '-' || c.isDigit then
        (parseNumber (c :: rest)).map fun p => (.num p.1, p.2)
      else none
    | [] => none

/-- Parse array items after `[` (whitespace already skipped); `first` is true
before any element has been read. -/
def parseArrItems : ℕ → List Char → Bool → Option (Json × List Char)
  | 0, _, _ => none
  | fuel + 1, s, first =>
    match s with
    | ']' :: rest => if first then some (.arr [], rest) else none
    | _ =>
      match parseVal fuel s with
      | none => none
      | some (v, rest) =>
        match rest.dropWhile jsonWS with
        | ',' :: rest' =>
          match parseArrItems fuel (rest'.dropWhile jsonWS) false with
          | some (.arr vs, rest'') => some (.arr (v :: vs), rest'')
          | _ => none
        | ']' :: rest' => some (.arr [v], rest')
        | _ => none

/-- Parse object members after `{` (whitespace already skipped), accumulating
fields with Python-dict duplicate handling. -/
def parseObjItems : ℕ → List Char → Bool → List (String × Json) →
    Option (Json × List Char)
  | 0, _, _, _ => none
  | fuel + 1, s, first, acc =>
    match s with
    | '}' :: rest => if first then some (.obj acc, rest) else none
    | '"' :: rest =>
      match parseStringAux rest.length [] rest with
      | none => none
      | some (key, rest') =>
        match rest'.dropWhile jsonWS with
        | ':' :: rest'' =>
          match parseVal fuel rest'' with
          | none => none
          | some (v, rest''') =>
            let acc' := insertField acc key v
            match rest'''.dropWhile jsonWS with
            | ',' :: more => parseObjItems fuel (more.dropWhile jsonWS) false acc'
            | '}' :: more => some (.obj acc', more)
            | _ => none
        | _ => none
    | _ => none

end

/-- `json.loads`: parse the whole text (allowing trailing whitespace only);
`none` models `json.JSONDecodeError`. -/
def json_loads (l : List Char) : Option Json :=
  match parseVal (l.length + 1) l with
  | some (v, rest) => if (rest.dropWhile jsonWS).isEmpty then some v else none
  | none => none

/-- One capture turned into a tool call: it must decode as an object carrying
both a `"tool"` and a `"parameters"` key; anything else is silently skipped. -/
def toolCallOfCapture (cap : List Char) : Option (Json × Json) :=
  match json_loads cap with
  | some (.obj fields) =>
    if (alookup "tool" fields).isSome ∧ (alookup "parameters" fields).isSome then
      some (objGetD fields "tool" .null, objGetD fields "parameters" .null)
    else none
  | _ => none

/-- `ToolExecutor._extract_tool_calls`. -/
def extract_tool_calls (text : String) : List (Json × Json) :=
  (scanBlocks text.data).filterMap toolCallOfCapture

/-- Spec-side input constructor used to state the amended tool-call claim: a
reply text assembled from fenced ```` ```json ```` blocks (each carried as
separator text before the fence, then the block's content) followed by
trailing text. -/
def renderBlocks : List (List Char × List Char) → List Char → List Char
  | [], trail => trail
  | (sep, content) :: rest, trail =>
    sep ++ (['`', '`', '`', 'j', 's', 'o', 'n', '\n'] ++
      (content ++ (['\n', '`', '`', '`'] ++ renderBlocks rest trail)))

/-! ## `src/tools/tool_executor.py` — dispatch -/

/-- The fixed tool registry's names, in declaration order. -/
def toolNames : List String :=
  [ "get_transaction_history", "analyze_transaction_patterns",
    "get_customer_profile", "search_negative_news", "assess_customer_risk",
    "check_regulatory_thresholds", "calculate_risk_score",
    "assess_structuring_risk" ]

/-- Python `str(e)` of the modelled exceptions (`KeyError` renders as the
repr of its key). -/
def pyErrStr : PyErr → String
  | .nameError n => "name '" ++ n ++ "' is not defined"
  | .keyError k => "'" ++ k ++ "'"
  | .typeError m => m
  | .valueError m => m
  | .validationError m => m

/-- The result dict of `ToolExecutor.execute`: either the unknown-tool
failure dict — which carries only `success` and `error`, no `tool` or
`parameters` key — or the uniform success/failure wrapper (whose `result`
key is present only on success). -/
inductive ExecRecord
  | notFound (error : String)
  | done (tool : String) (parameters : Json) (success : Bool) (result : Option Json)
      (error : Option String)

/-- Abstraction of the Python call `tool_func(**parameters)` for a registered
tool: it may return a value or raise; `execute` catches whatever it raises. -/
def ToolRun : Type := String → Json → Except PyErr Json

/-- `ToolExecutor.execute`. The membership test `tool_name not in self.tools`
hashes the candidate name outside any `try`, so an unhashable name (a dict or
list) raises out of `execute` itself. A registered tool called with a
non-mapping `parameters` raises `TypeError` inside the `try` and becomes a
failure record. -/
def executeTool (toolRun : ToolRun) (tool : Json) (parameters : Json) :
    Except PyErr ExecRecord :=
  if !tool.hashable then .error (.typeError "unhashable type")
  else
    match tool with
    | .str s =>
      if toolNames.contains s then
        match parameters with
        | .obj _ =>
          match toolRun s parameters with
          | .ok r => .ok (.done s parameters true (some r) none)
          | .error e =>
            .ok (.done s parameters false none (some ("Tool execution failed: " ++ pyErrStr e)))
        | _ =>
          .ok (.done s parameters false none
            (some "Tool execution failed: argument after ** must be a mapping"))
      else
        .ok (.notFound ("Tool '" ++ s ++ "' not found. Available tools: " ++
          String.intercalate ", " toolNames))
    | _ =>
      .ok (.notFound ("Tool '" ++ pyStr tool ++ "' not found. Available tools: " ++
        String.intercalate ", " toolNames))

/-- `ToolExecutor.parse_and_execute`: execute every extracted call in order of
appearance; an exception raised by `execute` propagates and discards the
collected results. -/
def parse_and_execute (toolRun : ToolRun) (text : String) :
    Except PyErr (List ExecRecord) :=
  (extract_tool_calls text).mapM fun c => executeTool toolRun c.1 c.2

/-! ## `ReACTInvestigator.investigate` -/

/-- What the LLM provider does on one iteration: raise, or return a reply. -/
inductive IterEvent
  | createError (msg : String)
  | reply (text : String)

/-- The record-processing loop of `investigate` (lines building
`ToolExecution` objects and extracting evidence). An exception leaves the
records already appended in place and is reported to the caller. -/
def processRecords : List ExecRecord → List ToolExecution → List Evidence →
    List ToolExecution × List Evidence × Option PyErr
  | [], execs, ev => (execs, ev, none)
  | .notFound _ :: _, execs, ev => (execs, ev, some (.keyError "tool"))
  | .done tool params success result err :: rest, execs, ev =>
    match params with
    | .obj _ =>
      let resultVal := result.getD (Json.obj [])
      match resultVal with
      | .obj _ =>
        let te : ToolExecution :=
          { tool_name := tool, parameters := params, result := resultVal,
            success := success, error := err }
        match extract_evidence success tool resultVal with
        | .ok newEv => processRecords rest (execs ++ [te]) (ev ++ newEv)
        | .error e => (execs ++ [te], ev, some e)
      | _ => (execs, ev, some (.validationError "result must be a dict"))
    | _ => (execs, ev, some (.validationError "parameters must be a dict"))

/-- The trace entry appended when an iteration's `try` block raises. -/
def iterErrorEntry (i : ℕ) (e : PyErr) : String :=
  "Iteration " ++ toString i ++ ": ERROR - " ++ pyErrStr e

/-- The ReACT loop of `investigate`, iteration `i` onwards with `rem`
iterations left. Returns the reasoning trace, tool executions and evidence
accumulated when the loop ends (by exhaustion, final-recommendation marker,
or a caught exception). -/
def investigateLoop (toolRun : ToolRun) (events : ℕ → IterEvent) :
    ℕ → ℕ → List String → List ToolExecution → List Evidence →
    List String × List ToolExecution × List Evidence
  | 0, _, trace, execs, ev => (trace, execs, ev)
  | rem + 1, i, trace, execs, ev =>
    match events i with
    | .createError msg =>
      (trace ++ ["Iteration " ++ toString i ++ ": ERROR - " ++ msg], execs, ev)
    | .reply text =>
      let trace' := trace ++ ["Iteration " ++ toString i ++ ": " ++ text]
      match parse_and_execute toolRun text with
      | .error e => (trace' ++ [iterErrorEntry i e], execs, ev)
      | .ok records =>
        if records.isEmpty then
          if strContains text "FINAL RECOMMENDATION" ||
              listHasSub ['S', 'A', 'R'] (text.data.map Char.toUpper) then
            (trace', execs, ev)
          else investigateLoop toolRun events rem (i + 1) trace' execs ev
        else
          match processRecords records execs ev with
          | (execs', ev', none) => investigateLoop toolRun events rem (i + 1) trace' execs' ev'
          | (execs', ev', some e) => (trace' ++ [iterErrorEntry i e], execs', ev')

/-- `ReACTInvestigator.investigate`, with the LLM provider abstracted as the
per-iteration `events` and the Python calls of the registered tool functions
abstracted as `toolRun`. The prompt/context strings only feed the provider
and are not tracked. -/
def investigate (toolRun : ToolRun) (max_iterations : ℕ) (events : ℕ → IterEvent)
    (case_id investigation_id : String) : Except PyErr InvestigationResult :=
  let acc := investigateLoop toolRun events max_iterations 1 [] [] []
  compile_results case_id investigation_id acc.2.1 acc.2.2 acc.1

end AML

/-! # Theorems -/

namespace Advisor

/-- C8: with `life_stage` unset, `infer_life_stage()` follows the age/dependents
table of the specification (age < 35 young_professional; 35–44 growing_family
when dependents > 0 else mid_career; 45–54 mid_career; 55–64 pre_retirement;
≥ 65 retired); an explicitly set `life_stage` is returned unchanged,
regardless of age and dependents. -/
theorem C8_infer_life_stage :
    (∀ age dependents : ℕ,
      (ClientProfileSlice.mk age dependents none).infer_life_stage =
        lifeStageSpec age dependents) ∧
    (∀ (age dependents : ℕ) (s : LifeStage),
      (ClientProfileSlice.mk age dependents (some s)).infer_life_stage = s) := by
  constructor
  · intro age dependents
    simp only [ClientProfileSlice.infer_life_stage, lifeStageSpec]
    split_ifs <;> first | rfl | omega
  · intro age dependents s
    rfl

set_option maxRecDepth 10000 in
/-- C9: counterexample to the claimed exact instance. In binary64 the doubles
nearest 0.00015 and 0.0006 are 5534023222112865 times 2^-65 and 2^-63; their
rounded sum is 6917529027641081 * 2^-63, one ulp BELOW the double nearest
0.00075 (which is 6917529027641082 * 2^-63). So the program's
`estimate_cost("gpt-4o-mini", 1000, 1000)` is about 0.0007499999999999999,
strictly less than — not equal to — 0.00075. -/
theorem C9_gpt4o_mini_cost_one_ulp_below :
    (estimate_cost "gpt-4o-mini" 1000 1000).map F64.toRat ≠ .ok (0.00075 : ℚ) ∧
    (estimate_cost "gpt-4o-mini" 1000 1000).map F64.toRat =
      .ok ((6917529027641081 : ℚ) / 9223372036854775808) ∧
    ((6917529027641081 : ℚ) / 9223372036854775808) < 0.00075 := by
  have hcore : fadd (fmul (fdiv1000 1000) (roundQ 15 100000))
      (fmul (fdiv1000 1000) (roundQ 6 10000)) = ⟨6917529027641081, -63⟩ := by decide
  have hval : estimate_cost "gpt-4o-mini" 1000 1000 = .ok ⟨6917529027641081, -63⟩ := by
    show Except.ok (fadd (fmul (fdiv1000 1000) (roundQ 15 100000))
      (fmul (fdiv1000 1000) (roundQ 6 10000))) = _
    rw [hcore]
  have htr : F64.toRat ⟨6917529027641081, -63⟩ =
      (6917529027641081 : ℚ) / 9223372036854775808 := by
    norm_num [F64.toRat, show Int.toNat 63 = 63 from rfl]
  have heq : (estimate_cost "gpt-4o-mini" 1000 1000).map F64.toRat =
      .ok ((6917529027641081 : ℚ) / 9223372036854775808) := by
    rw [hval]
    simp only [Except.map]
    rw [htr]
  refine ⟨?_, heq, by norm_num⟩
  rw [heq]
  intro hcontra
  rw [Except.ok.injEq] at hcontra
  norm_num at hcontra

set_option maxRecDepth 10000 in
/-- C9 (amended): for each of the four catalogued models and token counts up
to `10^15` (far below any float overflow), `estimate_cost` returns the
binary64 evaluation of `(input_tokens/1000) * input_rate +
(output_tokens/1000) * output_rate`, the rate literals being the explicit
doubles listed here (e.g. 0.00015 is 5534023222112865 * 2^-65); in
particular `estimate_cost("gpt-4o-mini", 1000, 1000)` is
6917529027641081 / 2^63, one ulp below 0.00075; and the call succeeds
exactly on the four catalogued names, raising `ValueError` otherwise. -/
theorem C9_estimate_cost_binary64 :
    (∀ i o : ℤ, i.natAbs ≤ 10 ^ 15 → o.natAbs ≤ 10 ^ 15 →
      estimate_cost "gpt-4o-mini" i o =
        .ok (fadd (fmul (fdiv1000 i) ⟨5534023222112865, -65⟩)
          (fmul (fdiv1000 o) ⟨5534023222112865, -63⟩))) ∧
    (∀ i o : ℤ, i.natAbs ≤ 10 ^ 15 → o.natAbs ≤ 10 ^ 15 →
      estimate_cost "gpt-4o" i o =
        .ok (fadd (fmul (fdiv1000 i) ⟨5764607523034235, -60⟩)
          (fmul (fdiv1000 o) ⟨8646911284551352, -59⟩))) ∧
    (∀ i o : ℤ, i.natAbs ≤ 10 ^ 15 → o.natAbs ≤ 10 ^ 15 →
      estimate_cost "gpt-4" i o =
        .ok (fadd (fmul (fdiv1000 i) ⟨8646911284551352, -58⟩)
          (fmul (fdiv1000 o) ⟨8646911284551352, -57⟩))) ∧
    (∀ i o : ℤ, i.natAbs ≤ 10 ^ 15 → o.natAbs ≤ 10 ^ 15 →
      estimate_cost "claude-3-sonnet-20240229" i o =
        .ok (fadd (fmul (fdiv1000 i) ⟨6917529027641082, -61⟩)
          (fmul (fdiv1000 o) ⟨8646911284551352, -59⟩))) ∧
    (estimate_cost "gpt-4o-mini" 1000 1000).map F64.toRat =
      .ok ((6917529027641081 : ℚ) / 9223372036854775808) ∧
    (∀ (name : String) (i o : ℤ),
      (estimate_cost name i o).toOption.isSome =
        (name == "gpt-4o-mini" || name == "gpt-4o" || name == "gpt-4" ||
          name == "claude-3-sonnet-20240229")) := by
  have hmini : roundQ 15 100000 = ⟨5534023222112865, -65⟩ := by decide
  have hminiOut : roundQ 6 10000 = ⟨5534023222112865, -63⟩ := by decide
  have h4oIn : roundQ 5 1000 = ⟨5764607523034235, -60⟩ := by decide
  have h4oOut : roundQ 15 1000 = ⟨8646911284551352, -59⟩ := by decide
  have h4In : roundQ 3 100 = ⟨8646911284551352, -58⟩ := by decide
  have h4Out : roundQ 6 100 = ⟨8646911284551352, -57⟩ := by decide
  have hclIn : roundQ 3 1000 = ⟨6917529027641082, -61⟩ := by decide
  have hcore : fadd (fmul (fdiv1000 1000) (roundQ 15 100000))
      (fmul (fdiv1000 1000) (roundQ 6 10000)) = ⟨6917529027641081, -63⟩ := by decide
  have hval : estimate_cost "gpt-4o-mini" 1000 1000 = .ok ⟨6917529027641081, -63⟩ := by
    show Except.ok (fadd (fmul (fdiv1000 1000) (roundQ 15 100000))
      (fmul (fdiv1000 1000) (roundQ 6 10000))) = _
    rw [hcore]
  have htr : F64.toRat ⟨6917529027641081, -63⟩ =
      (6917529027641081 : ℚ) / 9223372036854775808 := by
    norm_num [F64.toRat, show Int.toNat 63 = 63 from rfl]
  refine ⟨fun i o _ _ => ?_, fun i o _ _ => ?_, fun i o _ _ => ?_, fun i o _ _ => ?_,
    ?_, ?_⟩
  · show Except.ok (fadd (fmul (fdiv1000 i) (roundQ 15 100000))
      (fmul (fdiv1000 o) (roundQ 6 10000))) = _
    rw [hmini, hminiOut]
  · show Except.ok (fadd (fmul (fdiv1000 i) (roundQ 5 1000))
      (fmul (fdiv1000 o) (roundQ 15 1000))) = _
    rw [h4oIn, h4oOut]
  · show Except.ok (fadd (fmul (fdiv1000 i) (roundQ 3 100))
      (fmul (fdiv1000 o) (roundQ 6 100))) = _
    rw [h4In, h4Out]
  · show Except.ok (fadd (fmul (fdiv1000 i) (roundQ 3 1000))
      (fmul (fdiv1000 o) (roundQ 15 1000))) = _
    rw [hclIn, h4oOut]
  · rw [hval]
    simp only [Except.map]
    rw [htr]
  · intro name i o
    by_cases h1 : name = "gpt-4o-mini"
    · subst h1; rfl
    · by_cases h2 : name = "gpt-4o"
      · subst h2; rfl
      · by_cases h3 : name = "gpt-4"
        · subst h3; rfl
        · by_cases h4 : name = "claude-3-sonnet-20240229"
          · subst h4; rfl
          · have h1' : "gpt-4o-mini" ≠ name := fun hh => h1 hh.symm
            have h2' : "gpt-4o" ≠ name := fun hh => h2 hh.symm
            have h3' : "gpt-4" ≠ name := fun hh => h3 hh.symm
            have h4' : "claude-3-sonnet-20240229" ≠ name := fun hh => h4 hh.symm
            have halo : alookup name MODELS = none := by
              simp [alookup, MODELS, h1', h2', h3', h4']
            simp [estimate_cost, get_model_config, halo, Except.toOption, Except.map,
              beq_eq_false_iff_ne, h1, h2, h3, h4]

set_option maxRecDepth 10000 in
/-- `estimate_cost("gpt-4o", 2000, 1000)`: the theorem's formula evaluated at
a concrete catalogued call — 2.0 * 0.005 + 1.0 * 0.015, which happens to be
exactly representable, giving the double 0.025 = 7205759403792794 * 2^-58. -/
theorem C9_estimate_cost_binary64_witness :
    estimate_cost "gpt-4o" 2000 1000 = .ok ⟨7205759403792794, -58⟩ := by
  have h := C9_estimate_cost_binary64
  rw [h.2.1 2000 1000 (by decide) (by decide)]
  rw [show fadd (fmul (fdiv1000 2000) (⟨5764607523034235, -60⟩ : F64))
    (fmul (fdiv1000 1000) ⟨8646911284551352, -59⟩) = ⟨7205759403792794, -58⟩ from by decide]

end Advisor

namespace AML

/-- C1: contrary to the specification, `assess_customer_risk` never returns an
assessment for a customer present in the mock store: the `return` dict
evaluates `self._get_risk_recommendation(...)` inside the module-level
function, where `self` is unbound, so every known-customer call raises
`NameError` (the module-level `_get_risk_recommendation` exists but is never
reached). Evaluated here at all three stored customers. -/
theorem C1_assess_customer_risk_raises :
    assess_customer_risk "CUST_001" = .error (.nameError "self") ∧
    assess_customer_risk "CUST_002" = .error (.nameError "self") ∧
    assess_customer_risk "CUST_003" = .error (.nameError "self") :=
  ⟨rfl, rfl, rfl⟩

/-- C2 counterexample: the claim counts transactions with 9000 ≤ amount <
10000, but the source filter is strict (`amount > 9000`). An account whose
three transactions are all exactly $9,000 satisfies the claim's hypothesis,
yet no structuring pattern is reported, the risk indicator is absent, and
`overall_risk` is "low" (only the low-severity round-amounts pattern fires). -/
theorem C2_exactly_9000_not_counted :
    analyze_transaction_patterns
      [("acct_x",
        [ ⟨"T1", "2025-01-01", 9000, "cash_deposit"⟩,
          ⟨"T2", "2025-01-02", 9000, "cash_deposit"⟩,
          ⟨"T3", "2025-01-03", 9000, "cash_deposit"⟩ ])] "acct_x" 14 =
    .patterns
      { account_id := "acct_x"
        analysis_period_days := 14
        patterns_detected :=
          [ { pattern := "round_amounts", description := "3 of 3 are round amounts",
              severity := "low", count := 3 } ]
        risk_indicators := []
        overall_risk := "low" } := by
  norm_num [analyze_transaction_patterns, get_transaction_history, get_mock_transactions,
    alookup, analyzePatternsCore, isMultipleOf100, maxAmount, minAmount,
    List.filter, List.eraseDups, List.count]
  decide

/-- C3: every `InvestigationResult` that `_compile_results` successfully
constructs has `final_risk_score` inside `[0, 10]` (pydantic's `ge=0, le=10`
bound), and its `sar_required` flag is exactly "score ≥ 7 (the default
`sar_risk_threshold`) or some evidence item is critical-severity" — so each
of the two conditions alone forces `sar_required`. -/
theorem C3_compiled_result_invariants
    (case_id investigation_id : String) (execs : List ToolExecution)
    (evidence : List Evidence) (trace : List String) :
    match compile_results case_id investigation_id execs evidence trace with
    | .ok r =>
        (0 ≤ r.final_risk_score ∧ r.final_risk_score ≤ 10) ∧
        r.sar_required =
          (decide (r.final_risk_score ≥ 7) ||
            r.evidence.any (fun e => e.severity == "critical"))
    | .error _ => True := by
  unfold compile_results
  cases h : (calculate_final_risk_score execs evidence).asNum with
  | none => simp only [h]
  | some score =>
    simp only [h]
    by_cases hr : 0 ≤ score ∧ score ≤ 10
    · rw [if_pos hr]
      exact ⟨hr, rfl⟩
    · rw [if_neg hr]
      trivial

/-- C5: the fraud agent's compiled result follows the decision ladder on its
final fraud score: recommendation and the single `next_steps` action are the
tier strings for ≥8 / ≥6 / ≥4 / ≥2 / otherwise, `sar_required` is exactly
"score ≥ 7" and `escalation_required` exactly "score ≥ 8" — so a score of
exactly 8.0 gives "CONFIRMED FRAUD" with escalation, and a score of exactly
7.0 gives `sar_required` inside the "SUSPECTED FRAUD - High Probability" tier. -/
theorem C5_fraud_decision_ladder
    (case_id investigation_id : String) (execs : List ToolExecution)
    (evidence : List Evidence) (trace : List String) (fraud_indicators : List String) :
    match compile_fraud_results case_id investigation_id execs evidence trace
        fraud_indicators with
    | .ok r =>
        r.recommendation =
          (if r.final_risk_score ≥ 8 then "CONFIRMED FRAUD"
           else if r.final_risk_score ≥ 6 then "SUSPECTED FRAUD - High Probability"
           else if r.final_risk_score ≥ 4 then "SUSPECTED FRAUD - Medium Probability"
           else if r.final_risk_score ≥ 2 then "NEEDS REVIEW"
           else "LEGITIMATE ACTIVITY") ∧
        r.next_steps =
          [ if r.final_risk_score ≥ 8 then "Block account immediately and contact customer"
            else if r.final_risk_score ≥ 6 then
              "Block transactions and initiate customer verification"
            else if r.final_risk_score ≥ 4 then
              "Enhanced monitoring and step-up authentication"
            else if r.final_risk_score ≥ 2 then "Monitor closely for additional indicators"
            else "No action required - continue normal monitoring" ] ∧
        r.sar_required = decide (r.final_risk_score ≥ 7) ∧
        r.escalation_required = decide (r.final_risk_score ≥ 8)
    | .error _ => True := by
  unfold compile_fraud_results
  cases h : (calculate_fraud_score execs evidence).asNum with
  | none => simp only [h]
  | some score =>
    simp only [h]
    by_cases hr : 0 ≤ score ∧ score ≤ 10
    · rw [if_pos hr]
      refine ⟨?_, ?_, rfl, rfl⟩ <;> split_ifs <;> rfl
    · rw [if_neg hr]
      trivial

/-- C10: in `_calculate_final_risk_score`, the first execution named
`calculate_risk_score` or `assess_customer_risk` alone determines the score —
read from its result's `final_risk_score` (resp. `adjusted_risk_score`) field
with default 5.0, with the `success` flag never consulted and the
evidence-severity fallback never applied (the value is the same for every
evidence list); a failed execution's empty result dict yields the default 5.0. -/
theorem C10_first_scoring_execution_wins
    (pre : List ToolExecution) (e : ToolExecution) (post : List ToolExecution)
    (evidence : List Evidence)
    (hpre : ∀ x ∈ pre, x.tool_name ≠ "calculate_risk_score" ∧
      x.tool_name ≠ "assess_customer_risk")
    (he : e.tool_name = "calculate_risk_score" ∨ e.tool_name = "assess_customer_risk") :
    calculate_final_risk_score (pre ++ e :: post) evidence =
      (if e.tool_name = "calculate_risk_score" then
        resultGetD e.result "final_risk_score" (.num 5)
      else resultGetD e.result "adjusted_risk_score" (.num 5)) ∧
    (e.result = .obj [] →
      calculate_final_risk_score (pre ++ e :: post) evidence = .num 5) := by
  have main : calculate_final_risk_score (pre ++ e :: post) evidence =
      (if e.tool_name = "calculate_risk_score" then
        resultGetD e.result "final_risk_score" (.num 5)
      else resultGetD e.result "adjusted_risk_score" (.num 5)) := by
    induction pre with
    | nil =>
      rcases he with h | h
      · simp [calculate_final_risk_score, h]
      · have hne : e.tool_name ≠ "calculate_risk_score" := by
          rw [h]; decide
        simp [calculate_final_risk_score, h, hne]
    | cons x xs ih =>
      have hx := hpre x (List.mem_cons_self x xs)
      have ih' := ih (fun y hy => hpre y (List.mem_cons_of_mem x hy))
      simpa [calculate_final_risk_score, hx.1, hx.2] using ih'
  refine ⟨main, fun hres => ?_⟩
  rw [main, hres]
  split_ifs <;> rfl

/-- C10 witness: a single failed `assess_customer_risk` execution (success
false, empty result dict) with critical evidence accumulated yields exactly
the default score 5.0. -/
theorem C10_first_scoring_execution_wins_witness :
    calculate_final_risk_score
      [ { tool_name := "assess_customer_risk", parameters := Json.obj [],
          result := Json.obj [], success := false,
          error := some "Tool execution failed: boom" } ]
      [ { evidence_type := "structuring", description := "indicators found",
          severity := "critical", source := "assess_structuring_risk",
          data := Json.null } ] = Json.num 5 := by
  have h := C10_first_scoring_execution_wins []
    { tool_name := "assess_customer_risk", parameters := Json.obj [],
      result := Json.obj [], success := false,
      error := some "Tool execution failed: boom" }
    []
    [ { evidence_type := "structuring", description := "indicators found",
        severity := "critical", source := "assess_structuring_risk",
        data := Json.null } ]
    (fun x hx => absurd hx (List.not_mem_nil x)) (Or.inr rfl)
  exact h.2 rfl

/-- C2 amended: for every account (over an arbitrary store contents) whose
transaction list has at least 3 transactions with amount strictly between
9000 and 10000 — the source's filter — `analyze_transaction_patterns` reports
the `potential_structuring` pattern counting exactly those transactions with
severity "high", raises the risk indicator "Structuring to avoid CTR
reporting", and sets `overall_risk` to "high". -/
theorem C2_structuring_pattern_detected
    (store : List (String × List Txn)) (account_id : String) (days : ℤ)
    (h : 3 ≤ ((get_mock_transactions store account_id days).filter
        (fun t => decide (t.amount < 10000) && decide (t.amount > 9000))).length) :
    match analyze_transaction_patterns store account_id days with
    | .patterns p =>
        ({ pattern := "potential_structuring"
           description := "Found " ++
             toString ((get_mock_transactions store account_id days).filter
               (fun t => decide (t.amount < 10000) && decide (t.amount > 9000))).length ++
             " transactions between $9,000 and $10,000"
           severity := "high"
           count := ((get_mock_transactions store account_id days).filter
             (fun t => decide (t.amount < 10000) && decide (t.amount > 9000))).length } :
              PatternRec)
          ∈ p.patterns_detected ∧
        "Structuring to avoid CTR reporting" ∈ p.risk_indicators ∧
        p.overall_risk = "high"
    | .err _ => False := by
  have hlen : 3 ≤ (get_mock_transactions store account_id days).length :=
    le_trans h (List.length_filter_le _ _)
  have hne : (get_mock_transactions store account_id days).isEmpty = false := by
    cases hx : get_mock_transactions store account_id days with
    | nil => rw [hx] at hlen; simp at hlen
    | cons a l => rfl
  simp only [analyze_transaction_patterns, get_transaction_history, hne,
    Bool.false_eq_true, if_false, analyzePatternsCore]
  rw [if_pos h, if_pos h]
  refine ⟨List.mem_append_left _ (List.mem_append_left _
    (List.mem_append_left _ (List.mem_cons_self _ _))), ?_, ?_⟩
  · exact List.mem_append_left _ (List.mem_cons_self _ _)
  · rw [if_pos]
    simp [List.filter_append]

/-- C2 amended, witness: the fixed mock account `high_risk_account_001` has
five transactions strictly between $9,000 and $10,000, so the structuring
pattern fires with count 5 and overall risk "high". -/
theorem C2_structuring_pattern_detected_witness :
    (match analyze_transaction_patterns MOCK_TRANSACTIONS "high_risk_account_001" 14 with
    | .patterns p =>
        ({ pattern := "potential_structuring"
           description := "Found " ++
             toString ((get_mock_transactions MOCK_TRANSACTIONS "high_risk_account_001" 14).filter
               (fun t => decide (t.amount < 10000) && decide (t.amount > 9000))).length ++
             " transactions between $9,000 and $10,000"
           severity := "high"
           count := ((get_mock_transactions MOCK_TRANSACTIONS "high_risk_account_001" 14).filter
             (fun t => decide (t.amount < 10000) && decide (t.amount > 9000))).length } :
              PatternRec)
          ∈ p.patterns_detected ∧
        "Structuring to avoid CTR reporting" ∈ p.risk_indicators ∧
        p.overall_risk = "high"
    | .err _ => False) :=
  C2_structuring_pattern_detected MOCK_TRANSACTIONS "high_risk_account_001" 14 (by decide)

/-- The `eraseDups` accumulator loop preserves membership. -/
theorem json_mem_eraseDups_loop (a : Json) :
    ∀ (as bs : List Json), a ∈ List.eraseDups.loop as bs ↔ a ∈ as ∨ a ∈ bs := by
  intro as
  induction as with
  | nil => intro bs; simp [List.eraseDups.loop]
  | cons x xs ih =>
    intro bs
    show a ∈ (match bs.elem x with
      | true => List.eraseDups.loop xs bs
      | false => List.eraseDups.loop xs (x :: bs)) ↔ _
    cases hx : bs.elem x with
    | true =>
      have hxb : x ∈ bs := List.elem_iff.mp hx
      simp only [ih, List.mem_cons]
      constructor
      · rintro (hm | hm)
        · exact Or.inl (Or.inr hm)
        · exact Or.inr hm
      · rintro ((rfl | hm) | hm)
        · exact Or.inr hxb
        · exact Or.inl hm
        · exact Or.inr hm
    | false =>
      simp only [ih, List.mem_cons]
      tauto

/-- Membership is invariant under `eraseDups` on JSON values. -/
theorem json_mem_eraseDups (a : Json) (l : List Json) :
    a ∈ l.eraseDups ↔ a ∈ l := by
  simp [List.eraseDups, json_mem_eraseDups_loop]

/-- The same-day scan of `assess_structuring_risk` fires exactly when some
date value occurs more than once. -/
theorem sameDay_iff (dsts : List Json) :
    0 < (dsts.eraseDups.filter (fun d => dsts.count d > 1)).length ↔
      ∃ d ∈ dsts, 1 < dsts.count d := by
  rw [List.length_pos_iff_exists_mem]
  constructor
  · rintro ⟨d, hd⟩
    rw [List.mem_filter] at hd
    exact ⟨d, (json_mem_eraseDups d dsts).mp hd.1, by simpa using hd.2⟩
  · rintro ⟨d, hd, hc⟩
    exact ⟨d, List.mem_filter.mpr ⟨(json_mem_eraseDups d dsts).mpr hd, by simpa using hc⟩⟩

/-- Any-predicate over a conditional singleton. -/
theorem anyIte (c : Prop) [Decidable c] (x : Json) (f : Json → Bool) :
    (if c then [x] else []).any f = (decide c && f x) := by
  split_ifs with hc <;> simp [hc]

/-- On well-formed transactions the under-threshold filter of
`assess_structuring_risk` succeeds and keeps exactly the transactions whose
amount lies strictly between $9,000 (90% of the CTR threshold) and $10,000,
paired with their amounts. -/
theorem underThresholdFilter_wf :
    ∀ ts : List Json, ts.all specWfTxn = true →
      underThresholdFilter ts =
        .ok ((ts.filter specUnder).map fun t => (t, specAmount t)) := by
  intro ts
  induction ts with
  | nil => intro _; rfl
  | cons t ts ih =>
    intro h
    rw [List.all_cons, Bool.and_eq_true] at h
    obtain ⟨ht, hts⟩ := h
    cases t with
    | obj f =>
      cases hamt : objGetD f "amount" (.num 0) with
      | num a =>
        have hspecA : specAmount (.obj f) = a := by simp [specAmount, hamt]
        have hcond : (decide (a < ctr_threshold) &&
            decide (a > ctr_threshold * 0.9)) = specUnder (.obj f) := by
          have h09 : (10000 : ℚ) * 0.9 = 9000 := by norm_num
          simp only [specUnder, hspecA, ctr_threshold, h09]
        simp only [underThresholdFilter, hamt, Json.asNum]
        rw [ih hts, hcond, List.filter_cons]
        cases hc : specUnder (.obj f) with
        | true => simp [hc, hspecA, Bind.bind, Except.bind, pure, Except.pure]
        | false => simp [hc, Bind.bind, Except.bind, pure, Except.pure]
      | null => simp [specWfTxn, hamt] at ht
      | bool b => simp [specWfTxn, hamt] at ht
      | str s => simp [specWfTxn, hamt] at ht
      | arr l => simp [specWfTxn, hamt] at ht
      | obj g => simp [specWfTxn, hamt] at ht
    | null => simp [specWfTxn] at ht
    | bool b => simp [specWfTxn] at ht
    | num q => simp [specWfTxn] at ht
    | str s => simp [specWfTxn] at ht
    | arr l => simp [specWfTxn] at ht

/-- On well-formed transactions the same-day date scan of
`assess_structuring_risk` succeeds and collects every date in order. -/
theorem structuringDates_wf :
    ∀ ts : List Json, ts.all specWfTxn = true →
      structuringDates ts = .ok (ts.map specDate) := by
  intro ts
  induction ts with
  | nil => intro _; rfl
  | cons t ts ih =>
    intro h
    rw [List.all_cons, Bool.and_eq_true] at h
    obtain ⟨ht, hts⟩ := h
    cases t with
    | obj f =>
      cases hdt : objGetD f "date" .null with
      | str d =>
        have hd : d ≠ "" := by
          have := ht
          simp [specWfTxn, hdt] at this
          exact this.2
        simp only [structuringDates, hdt]
        rw [ih hts]
        have htr : (Json.str d).truthy = true := by simp [Json.truthy, hd]
        simp [htr, Json.hashable, specDate, hdt, Bind.bind, Except.bind, pure, Except.pure]
      | null => simp [specWfTxn, hdt] at ht
      | bool b => simp [specWfTxn, hdt] at ht
      | num q => simp [specWfTxn, hdt] at ht
      | arr l => simp [specWfTxn, hdt] at ht
      | obj g => simp [specWfTxn, hdt] at ht
    | null => simp [specWfTxn] at ht
    | bool b => simp [specWfTxn] at ht
    | num q => simp [specWfTxn] at ht
    | str s => simp [specWfTxn] at ht
    | arr l => simp [specWfTxn] at ht

/-- C6: on well-formed transaction lists (dicts with numeric amounts and
non-empty string dates), `assess_structuring_risk` returns the explicit error
result exactly when the list is empty; otherwise it flags the transactions
with amount strictly between 90% of the $10,000 CTR threshold and the
threshold, raises `multiple_under_threshold` iff at least 2 are flagged,
`total_exceeds_threshold` iff their amounts sum to at least the threshold,
`same_day_transactions` iff some date carries more than one flagged
transaction, grades `structuring_risk_level` critical/high/medium/low by the
indicator count ≥3/2/1/0, and recommends a SAR iff the level is high or
critical. -/
theorem C6_assess_structuring_risk (transactions : List Json)
    (hwf : transactions.all specWfTxn = true) :
    match assess_structuring_risk transactions with
    | .ok (.err _) => transactions = []
    | .ok (.res r) =>
        transactions ≠ [] ∧
        r.under_threshold_transactions = (transactions.filter specUnder).length ∧
        hasIndicator r.indicators "multiple_under_threshold" =
          decide ((transactions.filter specUnder).length ≥ 2) ∧
        hasIndicator r.indicators "total_exceeds_threshold" =
          decide (((transactions.filter specUnder).map specAmount).sum ≥ 10000) ∧
        hasIndicator r.indicators "same_day_transactions" =
          decide (∃ d ∈ (transactions.filter specUnder).map specDate,
            1 < ((transactions.filter specUnder).map specDate).count d) ∧
        r.structuring_risk_level =
          (if r.indicators_found ≥ 3 then "critical"
           else if r.indicators_found ≥ 2 then "high"
           else if r.indicators_found ≥ 1 then "medium" else "low") ∧
        r.sar_recommended =
          (r.structuring_risk_level == "critical" ||
            r.structuring_risk_level == "high")
    | .error _ => False := by
  by_cases hemp : transactions = []
  · subst hemp
    simp [assess_structuring_risk]
  · have hempB : transactions.isEmpty = false := by
      cases transactions with
      | nil => exact absurd rfl hemp
      | cons a l => rfl
    have hflwf : (transactions.filter specUnder).all specWfTxn = true := by
      rw [List.all_eq_true] at hwf ⊢
      exact fun t htf => hwf t (List.mem_of_mem_filter htf)
    have hbound : ∀ t ∈ transactions.filter specUnder, specAmount t < 10000 := by
      intro t htf
      have hsp := List.of_mem_filter htf
      simp only [specUnder, Bool.and_eq_true, decide_eq_true_eq] at hsp
      exact hsp.1
    have hlen2 : ∀ l : List Json, (∀ t ∈ l, specAmount t < 10000) →
        (l.map specAmount).sum ≥ 10000 → 2 ≤ l.length := by
      intro l hb hs
      match l, hb, hs with
      | [], _, hs => norm_num at hs
      | [t], hb, hs =>
        have hbt := hb t (List.mem_cons_self t [])
        simp only [List.map_cons, List.map_nil, List.sum_cons, List.sum_nil,
          add_zero, ge_iff_le] at hs
        exact absurd (lt_of_le_of_lt hs hbt) (by norm_num)
      | _ :: _ :: _, _, _ => simp
    have hiff2 : ((ctr_threshold ≤ ((transactions.filter specUnder).map specAmount).sum) ∧
          2 ≤ (transactions.filter specUnder).length) ↔
        (10000 ≤ ((transactions.filter specUnder).map specAmount).sum) := by
      show (((10000 : ℚ) ≤ _) ∧ _) ↔ _
      exact ⟨fun hh => hh.1, fun hh => ⟨hh, hlen2 _ hbound hh⟩⟩
    have hfst : (((transactions.filter specUnder).map fun t => (t, specAmount t)).map
        Prod.fst) = transactions.filter specUnder := by
      rw [List.map_map]
      show List.map id _ = _
      exact List.map_id _
    have hsnd : (((transactions.filter specUnder).map fun t => (t, specAmount t)).map
        Prod.snd) = (transactions.filter specUnder).map specAmount := by
      rw [List.map_map]
      rfl
    have en12 : (Json.str "multiple_under_threshold" == Json.str "total_exceeds_threshold") =
        false := by decide
    have en13 : (Json.str "multiple_under_threshold" == Json.str "same_day_transactions") =
        false := by decide
    have en21 : (Json.str "total_exceeds_threshold" == Json.str "multiple_under_threshold") =
        false := by decide
    have en23 : (Json.str "total_exceeds_threshold" == Json.str "same_day_transactions") =
        false := by decide
    have en31 : (Json.str "same_day_transactions" == Json.str "multiple_under_threshold") =
        false := by decide
    have en32 : (Json.str "same_day_transactions" == Json.str "total_exceeds_threshold") =
        false := by decide
    simp only [assess_structuring_risk, hempB, Bool.false_eq_true, if_false,
      underThresholdFilter_wf transactions hwf, Bind.bind, Except.bind]
    simp only [hfst, hsnd]
    rw [structuringDates_wf _ hflwf]
    simp only [Bind.bind, Except.bind, pure, Except.pure]
    refine ⟨hemp, ?_, ?_, ?_, ?_, ?_, ?_⟩
    · simp [List.length_map]
    · simp only [hasIndicator, List.any_append, anyIte, List.length_map]
      simp [objGetD, alookup, en21, en31]
    · simp only [hasIndicator, List.any_append, anyIte, List.length_map]
      simp only [objGetD, alookup]
      simp [en12, en32]
      rw [← Bool.decide_and, decide_eq_decide]
      exact hiff2
    · simp only [hasIndicator, List.any_append, anyIte, List.length_map]
      simp only [objGetD, alookup]
      simp [en13, en23]
      rw [sameDay_iff]
      simp [List.mem_map]
    · trivial
    · trivial

/-- C6 witness: the repository test's three cash deposits of $9,800, $9,750
and $9,900 are well-formed transactions, so the characterization theorem
applies to them. -/
theorem C6_assess_structuring_risk_witness :
    ([ Json.obj [("date", .str "2025-01-01"), ("amount", .num 9800), ("type", .str "cash_deposit")],
       Json.obj [("date", .str "2025-01-02"), ("amount", .num 9750), ("type", .str "cash_deposit")],
       Json.obj [("date", .str "2025-01-03"), ("amount", .num 9900), ("type", .str "cash_deposit")]
     ] : List Json).all specWfTxn = true ∧
    (match assess_structuring_risk
        [ Json.obj [("date", .str "2025-01-01"), ("amount", .num 9800), ("type", .str "cash_deposit")],
          Json.obj [("date", .str "2025-01-02"), ("amount", .num 9750), ("type", .str "cash_deposit")],
          Json.obj [("date", .str "2025-01-03"), ("amount", .num 9900), ("type", .str "cash_deposit")]
        ] with
    | .ok (.err _) =>
        ([ Json.obj [("date", .str "2025-01-01"), ("amount", .num 9800), ("type", .str "cash_deposit")],
           Json.obj [("date", .str "2025-01-02"), ("amount", .num 9750), ("type", .str "cash_deposit")],
           Json.obj [("date", .str "2025-01-03"), ("amount", .num 9900), ("type", .str "cash_deposit")]
         ] : List Json) = []
    | .ok (.res r) =>
        ([ Json.obj [("date", .str "2025-01-01"), ("amount", .num 9800), ("type", .str "cash_deposit")],
           Json.obj [("date", .str "2025-01-02"), ("amount", .num 9750), ("type", .str "cash_deposit")],
           Json.obj [("date", .str "2025-01-03"), ("amount", .num 9900), ("type", .str "cash_deposit")]
         ] : List Json) ≠ [] ∧
        r.under_threshold_transactions =
          (([ Json.obj [("date", .str "2025-01-01"), ("amount", .num 9800), ("type", .str "cash_deposit")],
              Json.obj [("date", .str "2025-01-02"), ("amount", .num 9750), ("type", .str "cash_deposit")],
              Json.obj [("date", .str "2025-01-03"), ("amount", .num 9900), ("type", .str "cash_deposit")]
            ] : List Json).filter specUnder).length ∧
        hasIndicator r.indicators "multiple_under_threshold" =
          decide ((([ Json.obj [("date", .str "2025-01-01"), ("amount", .num 9800), ("type", .str "cash_deposit")],
              Json.obj [("date", .str "2025-01-02"), ("amount", .num 9750), ("type", .str "cash_deposit")],
              Json.obj [("date", .str "2025-01-03"), ("amount", .num 9900), ("type", .str "cash_deposit")]
            ] : List Json).filter specUnder).length ≥ 2) ∧
        hasIndicator r.indicators "total_exceeds_threshold" =
          decide (((([ Json.obj [("date", .str "2025-01-01"), ("amount", .num 9800), ("type", .str "cash_deposit")],
              Json.obj [("date", .str "2025-01-02"), ("amount", .num 9750), ("type", .str "cash_deposit")],
              Json.obj [("date", .str "2025-01-03"), ("amount", .num 9900), ("type", .str "cash_deposit")]
            ] : List Json).filter specUnder).map specAmount).sum ≥ 10000) ∧
        hasIndicator r.indicators "same_day_transactions" =
          decide (∃ d ∈ (([ Json.obj [("date", .str "2025-01-01"), ("amount", .num 9800), ("type", .str "cash_deposit")],
              Json.obj [("date", .str "2025-01-02"), ("amount", .num 9750), ("type", .str "cash_deposit")],
              Json.obj [("date", .str "2025-01-03"), ("amount", .num 9900), ("type", .str "cash_deposit")]
            ] : List Json).filter specUnder).map specDate,
            1 < ((([ Json.obj [("date", .str "2025-01-01"), ("amount", .num 9800), ("type", .str "cash_deposit")],
              Json.obj [("date", .str "2025-01-02"), ("amount", .num 9750), ("type", .str "cash_deposit")],
              Json.obj [("date", .str "2025-01-03"), ("amount", .num 9900), ("type", .str "cash_deposit")]
            ] : List Json).filter specUnder).map specDate).count d) ∧
        r.structuring_risk_level =
          (if r.indicators_found ≥ 3 then "critical"
           else if r.indicators_found ≥ 2 then "high"
           else if r.indicators_found ≥ 1 then "medium" else "low") ∧
        r.sar_recommended =
          (r.structuring_risk_level == "critical" ||
            r.structuring_risk_level == "high")
    | .error _ => False) :=
  ⟨by decide, C6_assess_structuring_risk _ (by decide)⟩

/-- Dropping a prefix by predicate does not lengthen a list. -/
theorem dropWhile_len_le (p : Char → Bool) (l : List Char) :
    (l.dropWhile p).length ≤ l.length :=
  (List.dropWhile_sublist p).length_le

/-- The remainder returned by the lazy fence search is strictly shorter than
its input. -/
theorem findEnd_rem_length :
    ∀ (l cap rem : List Char), findEnd l = some (cap, rem) → rem.length < l.length := by
  intro l
  induction l with
  | nil => intro cap rem h; simp [findEnd] at h
  | cons ch t ih =>
    intro cap rem h
    simp only [findEnd] at h
    split at h
    · simp only [Option.some.injEq, Prod.mk.injEq] at h
      have hdwl := dropWhile_len_le reWS t
      have hd : ((t.dropWhile reWS).drop 3).length ≤ t.length := by
        rw [List.length_drop]
        omega
      have h2 : (t.dropWhile reWS).drop 3 = rem := h.2
      rw [← h2]
      simp only [List.length_cons]
      omega
    · cases hfe : findEnd t with
      | none => rw [hfe] at h; simp at h
      | some pr =>
        obtain ⟨cap', rem'⟩ := pr
        rw [hfe] at h
        simp only [Option.some.injEq, Prod.mk.injEq] at h
        have := ih cap' rem' hfe
        rw [← h.2]
        simp only [List.length_cons]
        omega

/-- The scanner returns nothing on empty input, for any fuel. -/
theorem scanAux_nil : ∀ f, scanAux f [] = [] := by
  intro f; cases f <;> rfl

/-- The scanner's result does not depend on the fuel, whenever the fuel
bounds the input length. -/
theorem scanAux_fuel : ∀ (f1 f2 : ℕ) (l : List Char), l.length ≤ f1 → l.length ≤ f2 →
    scanAux f1 l = scanAux f2 l := by
  intro f1
  induction f1 with
  | zero =>
    intro f2 l h1 _
    have : l = [] := List.length_eq_zero.mp (Nat.le_zero.mp h1)
    subst this
    rw [scanAux_nil, scanAux_nil]
  | succ k ih =>
    intro f2 l h1 h2
    cases l with
    | nil => rw [scanAux_nil, scanAux_nil]
    | cons c cs =>
      cases f2 with
      | zero => simp at h2
      | succ m =>
        have hcsk : cs.length ≤ k := by simpa using Nat.le_of_succ_le_succ h1
        have hcsm : cs.length ≤ m := by simpa using Nat.le_of_succ_le_succ h2
        simp only [scanAux]
        by_cases hp : listHasPrefix ['`', '`', '`', 'j', 's', 'o', 'n'] (c :: cs) = true
        · rw [if_pos hp, if_pos hp]
          by_cases hh : (((c :: cs).drop 7).dropWhile reWS).head? = some '{'
          · rw [if_pos hh, if_pos hh]
            cases hfe : findEnd (((c :: cs).drop 7).dropWhile reWS).tail with
            | none => exact ih m cs hcsk hcsm
            | some pr =>
              obtain ⟨cap, rem⟩ := pr
              have hlt : rem.length < (c :: cs).length := by
                have h0 := findEnd_rem_length _ _ _ hfe
                have h1' : (((c :: cs).drop 7).dropWhile reWS).tail.length ≤
                    (c :: cs).length := by
                  calc (((c :: cs).drop 7).dropWhile reWS).tail.length
                      ≤ (((c :: cs).drop 7).dropWhile reWS).length := by
                        cases hft : ((c :: cs).drop 7).dropWhile reWS <;> simp
                    _ ≤ ((c :: cs).drop 7).length := dropWhile_len_le _ _
                    _ ≤ (c :: cs).length := by rw [List.length_drop]; omega
                omega
              have hremk : rem.length ≤ k := by simp at hlt; omega
              have hremm : rem.length ≤ m := by simp at hlt; omega
              show ('{' :: cap) :: scanAux k rem = ('{' :: cap) :: scanAux m rem
              rw [ih m rem hremk hremm]
          · rw [if_neg hh, if_neg hh]
            exact ih m cs hcsk hcsm
        · rw [if_neg hp, if_neg hp]
          exact ih m cs hcsk hcsm

/-- After an interior `}` within backtick-free text, the fence-closing test
fails: the first non-whitespace character cannot be a backtick. -/
theorem closesFence_append_false : ∀ (m z : List Char), '`' ∉ m →
    closesFence (m ++ '}' :: z) = false := by
  intro m
  induction m with
  | nil => intro z _; rfl
  | cons a m' ih =>
    intro z ha
    rw [List.mem_cons, not_or] at ha
    show closesFence (a :: (m' ++ '}' :: z)) = false
    simp only [closesFence, List.dropWhile_cons]
    by_cases hws : reWS a = true
    · rw [if_pos hws]
      have := ih z ha.2
      simpa [closesFence] using this
    · rw [if_neg hws]
      have hne : ('`' == a) = false := beq_eq_false_iff_ne.mpr ha.1
      simp [listHasPrefix, hne]

/-- The lazy fence search on a backtick-free body followed by the closing
fence captures exactly the body (through its final `}`) and resumes after
the fence. -/
theorem findEnd_block : ∀ (mid rest : List Char), '`' ∉ mid →
    findEnd (mid ++ '}' :: '\n' :: '`' :: '`' :: '`' :: rest) =
      some (mid ++ ['}'], rest) := by
  intro mid
  induction mid with
  | nil => intro rest _; rfl
  | cons a mid' ih =>
    intro rest ha
    rw [List.mem_cons, not_or] at ha
    show findEnd (a :: (mid' ++ '}' :: '\n' :: '`' :: '`' :: '`' :: rest)) = _
    simp only [findEnd]
    have hcf : closesFence (mid' ++ '}' :: ('\n' :: '`' :: '`' :: '`' :: rest)) = false :=
      closesFence_append_false mid' _ ha.2
    rw [hcf, Bool.and_false]
    simp only [Bool.false_eq_true, if_false]
    rw [ih rest ha.2]
    simp [List.cons_append]

/-- Scanning skips leading backtick-free text. -/
theorem scanBlocks_sep : ∀ (sep l : List Char), '`' ∉ sep →
    scanBlocks (sep ++ l) = scanBlocks l := by
  intro sep
  induction sep with
  | nil => intro l _; rfl
  | cons c sep' ih =>
    intro l hc
    rw [List.mem_cons, not_or] at hc
    show scanBlocks (c :: (sep' ++ l)) = scanBlocks l
    have hne : ('`' == c) = false := beq_eq_false_iff_ne.mpr hc.1
    have step : scanBlocks (c :: (sep' ++ l)) = scanAux (sep' ++ l).length (sep' ++ l) := by
      simp only [scanBlocks, List.length_cons, scanAux]
      rw [if_neg (by simp [listHasPrefix, hne])]
    rw [step]
    show scanBlocks (sep' ++ l) = _
    exact ih l hc.2

/-- Backtick-free text contains no block at all. -/
theorem scanBlocks_no_tick (l : List Char) (h : '`' ∉ l) : scanBlocks l = [] := by
  have := scanBlocks_sep l [] h
  rw [List.append_nil] at this
  rw [this]
  rfl

/-- Scanning a well-delimited ```` ```json ```` block with backtick-free
braced content captures exactly the content and continues after the fence. -/
theorem scanBlocks_block (mid R : List Char) (hmid : '`' ∉ mid) :
    scanBlocks ('`' :: '`' :: '`' :: 'j' :: 's' :: 'o' :: 'n' :: '\n' :: '{' ::
      (mid ++ '}' :: '\n' :: '`' :: '`' :: '`' :: R)) =
      ('{' :: (mid ++ ['}'])) :: scanBlocks R := by
  have hdw : (((('`' : Char) :: '`' :: '`' :: 'j' :: 's' :: 'o' :: 'n' :: '\n' :: '{' ::
      (mid ++ '}' :: '\n' :: '`' :: '`' :: '`' :: R)).drop 7).dropWhile reWS) =
      '{' :: (mid ++ '}' :: '\n' :: '`' :: '`' :: '`' :: R) := rfl
  have hlen : ('`' :: '`' :: '`' :: 'j' :: 's' :: 'o' :: 'n' :: '\n' :: '{' ::
      (mid ++ '}' :: '\n' :: '`' :: '`' :: '`' :: R)).length =
      (mid.length + R.length + 13) + 1 := by
    simp only [List.length_cons, List.length_append, List.length_cons]
    omega
  show scanAux _ _ = _
  rw [hlen]
  simp only [scanAux]
  have hpre : listHasPrefix ['`', '`', '`', 'j', 's', 'o', 'n']
      ('`' :: '`' :: '`' :: 'j' :: 's' :: 'o' :: 'n' :: '\n' :: '{' ::
        (mid ++ '}' :: '\n' :: '`' :: '`' :: '`' :: R)) = true := by
    simp [listHasPrefix]
  rw [if_pos hpre, hdw]
  have hhead : (('{' : Char) ::
      (mid ++ '}' :: '\n' :: '`' :: '`' :: '`' :: R)).head? = some '{' := rfl
  rw [if_pos hhead]
  have htail : (('{' : Char) :: (mid ++ '}' :: '\n' :: '`' :: '`' :: '`' :: R)).tail =
      mid ++ '}' :: '\n' :: '`' :: '`' :: '`' :: R := rfl
  rw [htail, findEnd_block mid R hmid]
  show ('{' :: (mid ++ ['}'])) :: scanAux (mid.length + R.length + 13) R = _
  have hfr : scanAux (mid.length + R.length + 13) R = scanAux R.length R :=
    scanAux_fuel _ _ R (by omega) (le_refl _)
  rw [hfr]
  rfl

/-- Every list with `some` last element splits off that element. -/
theorem getLast?_split : ∀ (l : List Char) (a : Char), l.getLast? = some a →
    ∃ l', l = l' ++ [a] := by
  intro l
  induction l with
  | nil => intro a h; simp at h
  | cons c cs ih =>
    intro a h
    cases cs with
    | nil =>
      refine ⟨[], ?_⟩
      simp only [List.getLast?_singleton, Option.some.injEq] at h
      rw [h]
      rfl
    | cons d ds =>
      have h' : (d :: ds).getLast? = some a := by
        rw [List.getLast?_cons_cons] at h
        exact h
      obtain ⟨l', hl'⟩ := ih a h'
      exact ⟨c :: l', by rw [hl']; rfl⟩

/-- The scan of a reply assembled from well-delimited fenced blocks with
backtick-free separators yields exactly the block contents, in order. -/
theorem scanBlocks_render : ∀ (blocks : List (List Char × List Char)) (trail : List Char),
    (∀ p ∈ blocks, '`' ∉ p.1 ∧ p.2.head? = some '{' ∧ p.2.getLast? = some '}' ∧ '`' ∉ p.2) →
    '`' ∉ trail →
    scanBlocks (renderBlocks blocks trail) = blocks.map Prod.snd := by
  intro blocks
  induction blocks with
  | nil =>
    intro trail _ ht
    show scanBlocks trail = []
    exact scanBlocks_no_tick trail ht
  | cons b bs ih =>
    intro trail hb ht
    obtain ⟨sep, content⟩ := b
    obtain ⟨hsep, hhead, hlast, htick⟩ := hb (sep, content) (List.mem_cons_self _ _)
    have hbs : ∀ p ∈ bs, '`' ∉ p.1 ∧ p.2.head? = some '{' ∧ p.2.getLast? = some '}' ∧
        '`' ∉ p.2 := fun p hp => hb p (List.mem_cons_of_mem _ hp)
    cases content with
    | nil => simp at hhead
    | cons c0 t =>
      have hc0 : c0 = '{' := by simpa using hhead
      subst hc0
      have htne : t.getLast? = some '}' := by
        cases t with
        | nil => simp at hlast
        | cons d ds =>
          show (d :: ds).getLast? = some '}'
          rw [← List.getLast?_cons_cons]
          exact hlast
      obtain ⟨mid, hmid⟩ := getLast?_split t '}' htne
      have hmidtick : '`' ∉ mid := by
        intro hmem
        apply htick
        show '`' ∈ '{' :: t
        rw [hmid]
        exact List.mem_cons_of_mem _ (List.mem_append_left _ hmem)
      show scanBlocks (renderBlocks ((sep, '{' :: t) :: bs) trail) = _
      simp only [renderBlocks]
      rw [scanBlocks_sep _ _ hsep, hmid]
      simp only [List.cons_append, List.nil_append, List.append_assoc,
        List.singleton_append]
      rw [scanBlocks_block mid _ hmidtick]
      rw [ih trail hbs ht]
      simp [hmid]

/-- C4: the claim (and the repository's own test) says `iterations` never
exceeds `max_iterations`, but when an exception is raised after the reply is
recorded — here a reply calling the unknown tool `nonexistent_tool`, whose
failure dict lacks the `"tool"` key, so `result["tool"]` raises `KeyError` —
the handler appends a second trace entry for the same iteration and
`iterations = len(reasoning_trace)` becomes `max_iterations + 1`: with
`max_iterations = 1` the returned result reports `iterations = 2`. -/
theorem C4_iterations_can_exceed_max :
    ((investigate (fun _ _ => .ok (Json.obj []))
        1
        (fun _ => .reply "```json\n\x7b\"tool\": \"nonexistent_tool\", \"parameters\": \x7b\x7d\x7d\n```")
        "CASE_X" "INV_X").toOption.map (fun r => r.iterations)) = some 2 := by
  rfl

/-- C7: counterexample to "every surviving well-formed block in the same
reply is still executed" — when an earlier fenced block's content has no
closing brace, the lazy regex search runs past that block's closing fence
and swallows the following block whole, so the single capture is malformed
and silently dropped: the reply below carries a perfectly well-formed
`get_customer_profile` call in its second block, yet `parse_and_execute`
returns zero executions, while the very same block on its own executes. -/
theorem C7_unterminated_block_swallows_next :
    parse_and_execute (fun _ _ => .ok (Json.obj []))
      "```json\n\x7b\"a\": 1\n```\n```json\n\x7b\"tool\": \"get_customer_profile\", \"parameters\": \x7b\x7d\x7d\n```"
      = .ok []
    ∧ parse_and_execute (fun _ _ => .ok (Json.obj []))
      "```json\n\x7b\"tool\": \"get_customer_profile\", \"parameters\": \x7b\x7d\x7d\n```"
      = .ok [.done "get_customer_profile" (Json.obj []) true (some (Json.obj [])) none] :=
  ⟨rfl, rfl⟩

/-- C7 (amended): over replies assembled from well-delimited fenced blocks —
backtick-free separators and trailing text, each block's content starting
with `\x7b`, ending with `\x7d` and backtick-free — extraction yields exactly
the block contents that decode to objects carrying both a `"tool"` and a
`"parameters"` key (malformed JSON and missing keys are silently skipped,
nothing is raised for them), and `parse_and_execute` executes exactly the
surviving calls in order of appearance in the text, returning the list of
execution results in that order. -/
theorem C7_wellformed_blocks_execute_in_order (toolRun : ToolRun)
    (blocks : List (List Char × List Char)) (trail : List Char)
    (hb : ∀ p ∈ blocks,
      '`' ∉ p.1 ∧ p.2.head? = some '{' ∧ p.2.getLast? = some '}' ∧ '`' ∉ p.2)
    (ht : '`' ∉ trail) :
    extract_tool_calls (String.mk (renderBlocks blocks trail)) =
      (blocks.map Prod.snd).filterMap toolCallOfCapture
    ∧ parse_and_execute toolRun (String.mk (renderBlocks blocks trail)) =
      ((blocks.map Prod.snd).filterMap toolCallOfCapture).mapM
        (fun c => executeTool toolRun c.1 c.2) := by
  have hx : extract_tool_calls (String.mk (renderBlocks blocks trail)) =
      (blocks.map Prod.snd).filterMap toolCallOfCapture := by
    show (scanBlocks (renderBlocks blocks trail)).filterMap toolCallOfCapture = _
    rw [scanBlocks_render blocks trail hb ht]
  refine ⟨hx, ?_⟩
  show (extract_tool_calls (String.mk (renderBlocks blocks trail))).mapM
      (fun c => executeTool toolRun c.1 c.2) = _
  rw [hx]

/-- A reply made of a malformed (but properly brace-delimited) block followed
by a well-formed `calculate_risk_score` call: the malformed block is skipped
without raising and the well-formed call is the one execution returned. -/
theorem C7_wellformed_blocks_execute_in_order_witness :
    parse_and_execute (fun _ _ => .ok (Json.str "ok"))
      (String.mk (renderBlocks
        [([], "\x7b\"a\": \x7d".data),
         (['\n'], "\x7b\"tool\": \"calculate_risk_score\", \"parameters\": \x7b\x7d\x7d".data)]
        [])) =
      .ok [.done "calculate_risk_score" (Json.obj []) true (some (Json.str "ok")) none] := by
  have h := C7_wellformed_blocks_execute_in_order (fun _ _ => .ok (Json.str "ok"))
    [([], "\x7b\"a\": \x7d".data),
     (['\n'], "\x7b\"tool\": \"calculate_risk_score\", \"parameters\": \x7b\x7d\x7d".data)]
    [] (by decide) (by decide)
  rw [h.2]
  rfl

end AML
